import Mathlib

/-
  Verification of the geodetic tile-alignment and reprojection-planning core
  of gdal2mbtiles (gdal2mbtiles/gdal.py), shallowly embedded in Lean 4.

  Real-valued map coordinates are modelled by exact rationals (ℚ).  External
  collaborators (the GDAL reprojection engine, numpy floating-point helpers)
  are modelled as opaque function parameters, mirroring how the Python code
  receives them from outside.  Python floor-style modulo on floats is
  modelled exactly by `qmod`, Python `int()` truncation by `pyint`, and
  Python 2 `round()` (half away from zero) by `pyround`.
-/

/- ---------------------------------------------------------------------
   Geometry value types (gdal2mbtiles.types.XY / Extents).
   The types module is not part of the provided sources; the records are
   modelled from the spec (§3 DATA MODEL).
   --------------------------------------------------------------------- -/

/-- Modelled from the spec: `Point (XY)`, a pair of real-valued coordinates
`(x, y)` (types.XY, not under src/). -/
structure XY where
  x : ℚ
  y : ℚ
deriving DecidableEq, Repr

/-- Modelled from the spec: `Extents`, an axis-aligned box
`{lower_left, upper_right}` (types.Extents, not under src/). -/
structure Extents where
  lower_left : XY
  upper_right : XY
deriving DecidableEq, Repr

/-- Integer-valued point, used for TMS tile indices (the Python code reuses
`XY` with `int` components). -/
structure XYI where
  x : ℤ
  y : ℤ
deriving DecidableEq, Repr

/-- Integer-valued extents, used for TMS tile-index ranges. -/
structure ExtentsI where
  lower_left : XYI
  upper_right : XYI
deriving DecidableEq, Repr

/- ---------------------------------------------------------------------
   Numeric helpers: Python semantics over ℚ.
   --------------------------------------------------------------------- -/

/-- The value of Python `math.pi` (the IEEE-754 double closest to π),
as an exact rational. -/
def qpi : ℚ := 884279719003555 / 281474976710656

/-- Modelled from the spec: `TILE_SIDE` is a fixed constant, the pixel width
of one tile, e.g. 256 (constants.TILE_SIDE, not under src/). -/
def TILE_SIDE : ℚ := 256

/-- Python floor-style modulo on real numbers: `a % b = a - b*⌊a/b⌋`. -/
def qmod (a b : ℚ) : ℚ := a - b * ⌊a / b⌋

/-- Python `int()` truncation toward zero on a rational. -/
def pyint (q : ℚ) : ℤ := if 0 ≤ q then ⌊q⌋ else ⌈q⌉

/-- Python 2 `round()`: round half away from zero. -/
def pyround (q : ℚ) : ℤ := if 0 ≤ q then ⌊q + 1/2⌋ else ⌈q - 1/2⌉

theorem qmod_nonneg {b : ℚ} (a : ℚ) (hb : 0 < b) : 0 ≤ qmod a b := by
  have h := Int.fract_nonneg (a / b)
  have : qmod a b = b * Int.fract (a / b) := by
    unfold qmod Int.fract
    field_simp
  rw [this]
  positivity

theorem qmod_lt {b : ℚ} (a : ℚ) (hb : 0 < b) : qmod a b < b := by
  have h := Int.fract_lt_one (a / b)
  have heq : qmod a b = b * Int.fract (a / b) := by
    unfold qmod Int.fract
    field_simp
  rw [heq]
  calc b * Int.fract (a / b) < b * 1 := by
        exact (mul_lt_mul_left hb).mpr h
    _ = b := by ring

theorem qmod_int_mul {b : ℚ} (k : ℤ) (hb : b ≠ 0) : qmod (b * k) b = 0 := by
  unfold qmod
  have h : (b * (k : ℚ)) / b = (k : ℚ) := by field_simp
  rw [h, Int.floor_intCast]
  ring

/-- `pyint` of an exact integer is that integer. -/
theorem pyint_intCast (k : ℤ) : pyint (k : ℚ) = k := by
  unfold pyint
  split <;> simp

/- ---------------------------------------------------------------------
   SpatialReference (gdal.py lines 602-688).
   The underlying OSR object is opaque; the wrapper derives everything it
   uses from the fields below, exactly as the Python getters do.
   --------------------------------------------------------------------- -/

/-- Model of `SpatialReference` (gdal.py:602).  `isProjected` is the result
of `IsProjected() == 1`; the unit and axis getters are the opaque OSR
accessors; `epsgString` is the result of `GetEPSGString()`. -/
structure SpatialReference where
  isProjected : Bool
  angularUnits : ℚ
  linearUnits : ℚ
  semiMajor : ℚ
  semiMinor : ℚ
  epsgString : String
deriving DecidableEq, Repr

/-- `SpatialReference.GetMajorCircumference` (gdal.py:632). -/
def GetMajorCircumference (sr : SpatialReference) : ℚ :=
  if sr.isProjected = false then 2 * qpi / sr.angularUnits
  else sr.semiMajor * 2 * qpi / sr.linearUnits

/-- `SpatialReference.GetMinorCircumference` (gdal.py:637). -/
def GetMinorCircumference (sr : SpatialReference) : ℚ :=
  if sr.isProjected = false then 2 * qpi / sr.angularUnits
  else sr.semiMinor * 2 * qpi / sr.linearUnits

/-- `SpatialReference.GetWorldExtents` (gdal.py:642). -/
def GetWorldExtents (sr : SpatialReference) : Extents :=
  let major := GetMajorCircumference sr / 2
  let minor0 := GetMinorCircumference sr / 2
  let minor := if sr.isProjected = false then minor0 / 2 else minor0
  ⟨⟨-major, -minor⟩, ⟨major, minor⟩⟩

/-- The minor-axis offset computed at gdal.py:652-655: half the minor
circumference, or a quarter of it for a geographic system. -/
def minorOffsetOf (sr : SpatialReference) : ℚ :=
  if sr.isProjected = false then GetMinorCircumference sr / 4
  else GetMinorCircumference sr / 2

/-- `SpatialReference.OffsetPoint` (gdal.py:650). -/
def OffsetPoint (sr : SpatialReference) (x y : ℚ) (reverse : Bool) : ℚ × ℚ :=
  let majorOffset := GetMajorCircumference sr / 2
  let minorOffset := minorOffsetOf sr
  if reverse then (x - majorOffset, y - minorOffset)
  else (x + majorOffset, y + minorOffset)

/-- `SpatialReference.GetTileDimensions` (gdal.py:670). -/
def GetTileDimensions (sr : SpatialReference) (resolution : ℕ) : ℚ × ℚ :=
  let width := GetMajorCircumference sr / 2 ^ resolution
  let height := GetMinorCircumference sr / 2 ^ resolution
  if sr.isProjected = false then (width / 2, height / 2)
  else (width, height)

/-- `SpatialReference.GetPixelDimensions` (gdal.py:664). -/
def GetPixelDimensions (sr : SpatialReference) (resolution : ℕ) : ℚ × ℚ :=
  ((GetTileDimensions sr resolution).1 / TILE_SIDE,
   (GetTileDimensions sr resolution).2 / TILE_SIDE)

/-- `SpatialReference.GetTilesCount` (gdal.py:681). -/
def GetTilesCount (sr : SpatialReference) (extents : Extents)
    (resolution : ℕ) : ℤ × ℤ :=
  let width := extents.upper_right.x - extents.lower_left.x
  let height := extents.upper_right.y - extents.lower_left.y
  (pyround (width / (GetTileDimensions sr resolution).1),
   pyround (height / (GetTileDimensions sr resolution).2))

/-- Model of `CoordinateTransformation` (gdal.py:364): remembers both
endpoint projections; `transformPoint` is GDAL's opaque point reprojection
(`osr.CoordinateTransformation.TransformPoint`, x and y components). -/
structure CoordinateTransformation where
  src_ref : SpatialReference
  dst_ref : SpatialReference
  transformPoint : ℚ → ℚ → ℚ × ℚ

/- ---------------------------------------------------------------------
   Dataset (gdal.py lines 375-599).
   --------------------------------------------------------------------- -/

/-- Model of the raster metadata that `Dataset` (gdal.py:375) reads from its
GDAL handle: raster size in pixels, the six affine geotransform
coefficients, the spatial reference of the file, and the per-band no-data
values (`GetRasterBand(i).GetNoDataValue()` for `i = 1..RasterCount`;
`none` models a band without a no-data value). -/
structure Dataset where
  rasterXSize : ℕ
  rasterYSize : ℕ
  gt0 : ℚ
  gt1 : ℚ
  gt2 : ℚ
  gt3 : ℚ
  gt4 : ℚ
  gt5 : ℚ
  spatialRef : SpatialReference
  bandNoData : List (Option ℚ)

/-- `Dataset.RasterCount`. -/
def RasterCount (d : Dataset) : ℕ := d.bandNoData.length

/-- `Dataset.GetSpatialReference` (gdal.py:397). -/
def GetSpatialReference (d : Dataset) : SpatialReference := d.spatialRef

/-- The destination spatial reference used throughout the `Dataset` methods:
the dataset's own reference when no transform is given, else the
transform's destination reference. -/
def dstRefOf (d : Dataset) (transform : Option CoordinateTransformation) :
    SpatialReference :=
  match transform with
  | none => GetSpatialReference d
  | some t => t.dst_ref

/-- `Dataset.PixelCoordinates` (gdal.py:437), at coordinates that satisfy
the bounds assertions (the four raster corners always do). -/
def PixelCoordinates (d : Dataset) (x y : ℚ)
    (transform : Option CoordinateTransformation) : XY :=
  let coords : XY := ⟨d.gt0 + d.gt1 * x + d.gt2 * y,
                      d.gt3 + d.gt4 * x + d.gt5 * y⟩
  match transform with
  | none => coords
  | some t =>
      let p := t.transformPoint coords.x coords.y
      ⟨p.1, p.2⟩

/-- `Dataset.GetExtents` (gdal.py:464): bounding box of the four pixel
corners mapped through the affine transform and the optional reprojection. -/
def GetExtents (d : Dataset) (transform : Option CoordinateTransformation) :
    Extents :=
  let xSize : ℚ := d.rasterXSize
  let ySize : ℚ := d.rasterYSize
  let ul := PixelCoordinates d 0 0 transform
  let ur := PixelCoordinates d xSize 0 transform
  let ll := PixelCoordinates d 0 ySize transform
  let lr := PixelCoordinates d xSize ySize transform
  ⟨⟨min (min (min ul.x ur.x) ll.x) lr.x, min (min (min ul.y ur.y) ll.y) lr.y⟩,
   ⟨max (max (max ul.x ur.x) ll.x) lr.x, max (max (max ul.y ur.y) ll.y) lr.y⟩⟩

/- ---------------------------------------------------------------------
   Dataset.GetNativeResolution (gdal.py:404-435).
   --------------------------------------------------------------------- -/

/-- Source pixel size (gdal.py:410-411): `min(abs(width), abs(height))` of
the affine geotransform. -/
def srcPixelSize (d : Dataset) : ℚ := min |d.gt1| |d.gt5|

/-- Destination pixel size (gdal.py:413-419): the source pixel size, or its
image under the transform (x component, absolute value). -/
def dstPixelSize (d : Dataset)
    (transform : Option CoordinateTransformation) : ℚ :=
  match transform with
  | none => srcPixelSize d
  | some t => |(t.transformPoint (srcPixelSize d) 0).1|

/-- The loop body's stopping test (gdal.py:431-434): the destination pixel
size at `resolution` exceeds the wanted pixel size by at most the relative
tolerance `dst_pixel_size * 1.0e-06`. -/
def natResCond (d : Dataset) (transform : Option CoordinateTransformation)
    (resolution : ℕ) : Prop :=
  let dst := dstPixelSize d transform
  let dims := GetPixelDimensions (dstRefOf d transform) resolution
  max dims.1 dims.2 - dst ≤ dst * (1 / 1000000)

instance natResCondDec (d : Dataset) (t : Option CoordinateTransformation)
    (z : ℕ) : Decidable (natResCond d t z) := by
  unfold natResCond
  exact inferInstance

/-- The loop's full exit condition (gdal.py:427-435): either the `maximum`
cap has been reached (checked first) or the pixel-size test holds. -/
def natResStop (d : Dataset) (transform : Option CoordinateTransformation)
    (maximum : Option ℕ) (resolution : ℕ) : Prop :=
  (match maximum with
   | some m => m ≤ resolution
   | none => False) ∨ natResCond d transform resolution

instance natResStopDec (d : Dataset) (t : Option CoordinateTransformation)
    (maximum : Option ℕ) : DecidablePred (natResStop d t maximum) := by
  intro z
  unfold natResStop
  cases maximum <;> exact inferInstance

/-- `Dataset.GetNativeResolution` (gdal.py:404): the value returned by the
first iteration of `for resolution in count()` whose exit condition fires.
The hypothesis `h` is the termination of the Python loop. -/
def GetNativeResolution (d : Dataset)
    (transform : Option CoordinateTransformation) (maximum : Option ℕ)
    (h : ∃ z, natResStop d transform maximum z) : ℕ :=
  Nat.find h

/- ---------------------------------------------------------------------
   Dataset.GetTiledExtents (gdal.py:491-532).
   --------------------------------------------------------------------- -/

/-- The tile-snapping computation of `GetTiledExtents` applied to a given
box (gdal.py:500-532): shift both corners by `OffsetPoint`, round the lower
corner down and the upper corner up to multiples of the tile dimensions
with floor-style modulo, shift back with `reverse=True`, and clamp every
edge to the world extents. -/
def snapExtentsToTiles (sr : SpatialReference) (resolution : ℕ)
    (extents : Extents) : Extents :=
  let tileWidth := (GetTileDimensions sr resolution).1
  let tileHeight := (GetTileDimensions sr resolution).2
  let lb := OffsetPoint sr extents.lower_left.x extents.lower_left.y false
  let rt := OffsetPoint sr extents.upper_right.x extents.upper_right.y false
  let left := lb.1 - qmod lb.1 tileWidth
  let right := rt.1 + qmod (-rt.1) tileWidth
  let bottom := lb.2 - qmod lb.2 tileHeight
  let top := rt.2 + qmod (-rt.2) tileHeight
  let lb' := OffsetPoint sr left bottom true
  let rt' := OffsetPoint sr right top true
  let world := GetWorldExtents sr
  ⟨⟨max lb'.1 world.lower_left.x, max lb'.2 world.lower_left.y⟩,
   ⟨min rt'.1 world.upper_right.x, min rt'.2 world.upper_right.y⟩⟩

/-- `Dataset.GetTiledExtents` (gdal.py:491) at an explicitly supplied
resolution: the dataset's extents in the destination projection, snapped to
the tile grid. -/
def GetTiledExtents (d : Dataset)
    (transform : Option CoordinateTransformation) (resolution : ℕ) :
    Extents :=
  snapExtentsToTiles (dstRefOf d transform) resolution (GetExtents d transform)

/- ---------------------------------------------------------------------
   Dataset.GetTmsExtents (gdal.py:534-570).
   --------------------------------------------------------------------- -/

/-- Modelled from the spec: `Extents.almost_equal(other, places)`
(types.Extents, not under src/) — approximate equality of all four
coordinates to `places` decimal places. -/
def almostEqual (places : ℕ) (e1 e2 : Extents) : Prop :=
  |e1.lower_left.x - e2.lower_left.x| * 10 ^ places < 1 / 2 ∧
  |e1.lower_left.y - e2.lower_left.y| * 10 ^ places < 1 / 2 ∧
  |e1.upper_right.x - e2.upper_right.x| * 10 ^ places < 1 / 2 ∧
  |e1.upper_right.y - e2.upper_right.y| * 10 ^ places < 1 / 2

instance almostEqualDec (places : ℕ) (e1 e2 : Extents) :
    Decidable (almostEqual places e1 e2) := by
  unfold almostEqual
  exact inferInstance

/-- `UnalignedInputError` (exceptions module, raised at gdal.py:557). -/
structure UnalignedInputError where
  message : String
deriving DecidableEq, Repr

/-- `Dataset.GetTmsExtents` (gdal.py:534) at an explicitly supplied
resolution.  Raises `UnalignedInputError` when the native-resolution tiled
extents do not almost-equal the raw extents to 2 decimal places; otherwise
divides the offset tiled corners by the tile dimensions and truncates to
integer tile indices, the upper-right being excluded from the range.  The
hypothesis `h` is the termination of the native-resolution scan used by the
alignment check. -/
def GetTmsExtents (d : Dataset)
    (transform : Option CoordinateTransformation) (resolution : ℕ)
    (h : ∃ z, natResStop d transform none z) :
    Except UnalignedInputError ExtentsI :=
  let spatial_ref := dstRefOf d transform
  let tileWidth := (GetTileDimensions spatial_ref resolution).1
  let tileHeight := (GetTileDimensions spatial_ref resolution).2
  if ¬ almostEqual 2
      (GetTiledExtents d transform (GetNativeResolution d transform none h))
      (GetExtents d transform) then
    .error ⟨"Dataset is not aligned to TMS grid"⟩
  else
    let extents := GetTiledExtents d transform resolution
    let lb := OffsetPoint spatial_ref extents.lower_left.x
      extents.lower_left.y false
    let rt := OffsetPoint spatial_ref extents.upper_right.x
      extents.upper_right.y false
    .ok ⟨⟨pyint (lb.1 / tileWidth), pyint (lb.2 / tileHeight)⟩,
         ⟨pyint (rt.1 / tileWidth), pyint (rt.2 / tileHeight)⟩⟩

/-- `Dataset.GetWorldTmsExtents` (gdal.py:572): the tile-index extents of
the whole world, lower-left always `(0, 0)`. -/
def GetWorldTmsExtents (d : Dataset)
    (transform : Option CoordinateTransformation) (resolution : ℕ) :
    ExtentsI :=
  let spatial_ref := dstRefOf d transform
  let world_tiles :=
    GetTilesCount spatial_ref (GetWorldExtents spatial_ref) resolution
  ⟨⟨0, 0⟩, ⟨world_tiles.1, world_tiles.2⟩⟩

/-- Modelled from the spec: membership of a tile index in integer tile-index
extents (`XY(x, y) not in data_extents` at gdal.py:599; types.Extents
`__contains__`, not under src/) — the lower bound is inclusive and the
upper bound exclusive in each axis. -/
def insideExtentsI (e : ExtentsI) (p : XYI) : Prop :=
  e.lower_left.x ≤ p.x ∧ p.x < e.upper_right.x ∧
  e.lower_left.y ≤ p.y ∧ p.y < e.upper_right.y

instance insideExtentsIDec (e : ExtentsI) (p : XYI) :
    Decidable (insideExtentsI e p) := by
  unfold insideExtentsI
  exact inferInstance

/-- The integers of Python `xrange(a, b)`, in order. -/
def intRange (a b : ℤ) : List ℤ :=
  (List.range (b - a).toNat).map (fun i : ℕ => a + (i : ℤ))

/-- A Python generator object: it holds the items it has not yet yielded.
Iterating it (e.g. `list(g)`) returns those items and leaves the generator
exhausted. -/
structure PyGenerator (α : Type) where
  pending : List α
deriving DecidableEq, Repr

/-- Fully iterating a Python generator: yields everything still pending and
exhausts the generator in place. -/
def PyGenerator.iterate {α : Type} (g : PyGenerator α) :
    List α × PyGenerator α :=
  (g.pending, ⟨[]⟩)

/-- `Dataset.GetWorldTmsBorders` (gdal.py:588): a generator over the world
tile indices at the given resolution that are not inside the dataset's own
tile-index extents (x outer loop, y inner loop).  `GetTmsExtents` is
evaluated eagerly, so its unaligned-input failure propagates. -/
def GetWorldTmsBorders (d : Dataset)
    (transform : Option CoordinateTransformation) (resolution : ℕ)
    (h : ∃ z, natResStop d transform none z) :
    Except UnalignedInputError (PyGenerator XYI) :=
  let world_extents := GetWorldTmsExtents d transform resolution
  (GetTmsExtents d transform resolution h).map fun data_extents =>
    ⟨(intRange world_extents.lower_left.x world_extents.upper_right.x).flatMap
      fun x =>
        (intRange world_extents.lower_left.y
            world_extents.upper_right.y).filterMap fun y =>
          if insideExtentsI data_extents ⟨x, y⟩ then none else some ⟨x, y⟩⟩

/- ---------------------------------------------------------------------
   VRT and pipeline (gdal.py:70-91, 691-707).
   --------------------------------------------------------------------- -/

/-- `VRT` (gdal.py:691): an in-memory textual raster description. -/
structure VRT where
  content : String
deriving DecidableEq, Repr

/-- The temporary-file bookkeeping performed by `pipeline` (gdal.py:80-91):
`NamedTemporaryFile` handles are identified by the order of their creation;
`opened` are the live handles in `tmpfiles`, `closed` the handles whose
`close()` has run. -/
structure TmpState where
  nextId : ℕ
  opened : List ℕ
  closed : List ℕ
deriving DecidableEq, Repr

/-- The state before `pipeline` touches the filesystem. -/
def initTmpState : TmpState := ⟨0, [], []⟩

/-- The temp-file name `vrt.get_tempfile(suffix='.vrt', prefix='gdal%d')`
hands back (gdal.py:85), by creation index. -/
def tempName (n : ℕ) : String := "gdal" ++ toString n ++ ".vrt"

/-- `VRT.get_tempfile` (gdal.py:701) as it is used by `pipeline`: create a
new scoped temporary file holding the VRT content and track it. -/
def newTempfile (s : TmpState) : ℕ × TmpState :=
  (s.nextId, ⟨s.nextId + 1, s.opened ++ [s.nextId], s.closed⟩)

/-- Closing every handle in `tmpfiles` (the `finally` of gdal.py:89-91). -/
def closeAllTempfiles (s : TmpState) : TmpState :=
  ⟨s.nextId, [], s.closed ++ s.opened⟩

/-- The failure type of `pipeline`: the `ValueError` guard for an empty
function sequence, or an exception escaping from a step or the final
render. -/
inductive PipelineError (ε : Type) where
  | emptyFunctions : PipelineError ε
  | step (e : ε) : PipelineError ε
deriving DecidableEq, Repr

/-- The `for i, f in enumerate(functions)` loop of `pipeline`
(gdal.py:82-87): apply each step to the name of the previous step's
materialized temp file, materialize its VRT, and hand the final VRT to the
caller; on a step failure, stop with the temp files created so far. -/
def runPipelineSteps {ε : Type} (f : String → Except ε VRT)
    (rest : List (String → Except ε VRT)) (previous : String)
    (s : TmpState) : Except ε VRT × TmpState :=
  match f previous with
  | .error e => (.error e, s)
  | .ok vrt =>
      let (fileId, s') := newTempfile s
      match rest with
      | [] => (.ok vrt, s')
      | g :: gs => runPipelineSteps g gs (tempName fileId) s'

/-- `pipeline` (gdal.py:70-91).  `render` models `vrt.render(outputfile,
**kwargs)`, the external-engine invocation that may itself fail.  Returns
the outcome together with the final temp-file state: the empty-functions
`ValueError` is raised before any temp file exists, and the `finally`
clause closes every tracked temp file on every other path. -/
def pipeline {ε β : Type} (inputfile : String)
    (functions : List (String → Except ε VRT))
    (render : VRT → Except ε β) :
    Except (PipelineError ε) β × TmpState :=
  match functions with
  | [] => (.error .emptyFunctions, initTmpState)
  | f :: rest =>
      let rs := runPipelineSteps f rest inputfile initTmpState
      let result : Except (PipelineError ε) β :=
        match rs.1 with
        | .error e => .error (.step e)
        | .ok vrt =>
            match render vrt with
            | .error e => .error (.step e)
            | .ok out => .ok out
      (result, closeAllTempfiles rs.2)

/- ---------------------------------------------------------------------
   Process execution wrapper (gdal.py:42-51) and
   extract_color_band (gdal.py:94-119).
   --------------------------------------------------------------------- -/

/-- The observable outcome of one synchronous child process: its exit code
and fully captured output streams. -/
structure ProcResult where
  returncode : ℤ
  stdoutdata : String
  stderrdata : String
deriving DecidableEq, Repr

/-- Python `str.rstrip('\n')`: remove every trailing newline character. -/
def rstripNewlines (s : String) : String :=
  ⟨(s.data.reverse.dropWhile (fun c => c = '\n')).reverse⟩

/-- `CalledGdalError` (exceptions module, raised at gdal.py:49): exit code,
command, captured stdout, and captured stderr with trailing newlines
stripped. -/
structure CalledGdalError where
  returncode : ℤ
  cmd : List String
  output : String
  error : String
deriving DecidableEq, Repr

/-- `check_output_gdal` (gdal.py:42-51): run the command (its observable
outcome is `run`), fail with a structured `CalledGdalError` on a non-zero
exit code, and return the captured stdout otherwise. -/
def check_output_gdal (cmd : List String) (run : ProcResult) :
    Except CalledGdalError String :=
  if run.returncode ≠ 0 then
    .error ⟨run.returncode, cmd, run.stdoutdata,
            rstripNewlines run.stderrdata⟩
  else
    .ok run.stdoutdata

/-- The documented gdal_translate stdout quirk text (gdal.py:115-116). -/
def stdoutQuirkMessage : String :=
  "ERROR 4: \x60/dev/stdout\x27 not recognised as a supported file format."

/-- The failure type of `extract_color_band`: the band-range `ValueError`
(gdal.py:100) or a propagated engine failure (gdal.py:119). -/
inductive ExtractError where
  | valueError (message : String) : ExtractError
  | gdalError (e : CalledGdalError) : ExtractError
deriving DecidableEq, Repr

/-- The gdal_translate command built by `extract_color_band`
(gdal.py:104-111), after `str()` conversion of every element. -/
def extractBandCmd (inputfile : String) (band : ℤ) : List String :=
  ["gdal_translate", "-q", "-of", "VRT", "-b", toString band, inputfile,
   "/dev/stdout"]

/-- `extract_color_band` (gdal.py:94-119): validate the band index, invoke
gdal_translate (observable outcome `run`), and recover exactly the failure
whose error text is the documented stdout quirk by taking the
already-produced stdout as the VRT. -/
def extract_color_band (d : Dataset) (inputfile : String) (band : ℤ)
    (run : ProcResult) : Except ExtractError VRT :=
  if ¬ (1 ≤ band ∧ band ≤ (RasterCount d : ℤ)) then
    .error (.valueError ("band must be between 1 and " ++
      toString (RasterCount d)))
  else
    match check_output_gdal (extractBandCmd inputfile band) run with
    | .ok out => .ok ⟨out⟩
    | .error e =>
        if e.error = stdoutQuirkMessage then .ok ⟨e.output⟩
        else .error (.gdalError e)

/- ---------------------------------------------------------------------
   warp (gdal.py:122-190).
   --------------------------------------------------------------------- -/

/-- Modelled from the spec: the external engine's warp binary
(constants.GDALWARP, not under src/). -/
def GDALWARP : String := "gdalwarp"

/-- A warp argument as the Python command list holds it before the final
`str()` conversion: a plain string, a full-precision float (`'{!r}'`), an
integer, or the space-joined per-band no-data token list
(`' '.join(str(v).lower() ...)`, textual rendering delegated to Python's
lowercase `str`). -/
inductive Arg where
  | lit (s : String) : Arg
  | q (x : ℚ) : Arg
  | i (n : ℤ) : Arg
  | nodataText (values : List (Option ℚ)) : Arg
deriving DecidableEq, Repr

/-- `RESAMPLING_METHODS` (gdal.py:33-39): the GDAL `GRA_*` enum codes
(gdalconst values 0-4) mapped to their canonical gdalwarp names. -/
def RESAMPLING_METHODS : List (ℕ × String) :=
  [(0, "near"), (1, "bilinear"), (2, "cubic"), (3, "cubicspline"),
   (4, "lanczos")]

/-- A value supplied for `resampling`: a GDAL `GRA_*` enum code (a
non-string, looked up by `RESAMPLING_METHODS[resampling]`) or a method name
string. -/
inductive ResamplingArg where
  | gra (code : ℕ) : ResamplingArg
  | name (s : String) : ResamplingArg
deriving DecidableEq, Repr

/-- `UnknownResamplingMethodError` (exceptions module, raised at
gdal.py:149 and gdal.py:151), carrying the offending value. -/
structure UnknownResamplingMethodError where
  method : ResamplingArg
deriving DecidableEq, Repr

/-- The resampling validation of `warp` (gdal.py:144-151): a non-string is
translated through `RESAMPLING_METHODS` (a missing key fails), a string
must be one of that table's values. -/
def validateResampling (a : ResamplingArg) :
    Except UnknownResamplingMethodError String :=
  match a with
  | .gra code =>
      match (RESAMPLING_METHODS.find? (fun p => p.1 = code)).map Prod.snd with
      | some s => .ok s
      | none => .error ⟨a⟩
  | .name s =>
      if (RESAMPLING_METHODS.map Prod.snd).contains s then .ok s
      else .error ⟨a⟩

/-- Python truthiness of one entry of `nodata_values` (gdal.py:184):
`None` and numeric zero are falsy. -/
def pyTruthyNoData (v : Option ℚ) : Bool :=
  match v with
  | none => false
  | some x => decide (x ≠ 0)

/-- `warp` (gdal.py:122-190) up to the external-engine invocation: the
gdalwarp command list it assembles.  `tpf` is GDAL's opaque point
reprojection for `CoordinateTransformation(src_spatial_ref, spatial_ref)`
(gdal.py:156), and `h` is the termination of the native-resolution scan
(gdal.py:157). -/
def warpCmd (inputfile : String) (d : Dataset)
    (spatial_ref : SpatialReference) (tpf : ℚ → ℚ → ℚ × ℚ)
    (resampling : Option ResamplingArg) (maximum_resolution : Option ℕ)
    (h : ∃ z, natResStop d
      (some ⟨GetSpatialReference d, spatial_ref, tpf⟩) maximum_resolution z) :
    Except UnknownResamplingMethodError (List Arg) := do
  let base : List Arg :=
    [.lit GDALWARP, .lit "-q", .lit "-of", .lit "VRT",
     .lit "-t_srs", .lit spatial_ref.epsgString]
  let resamplingArgs : List Arg ←
    match resampling with
    | none => pure []
    | some a => do
        let s ← validateResampling a
        pure [Arg.lit "-r", Arg.lit s]
  let transform : CoordinateTransformation :=
    ⟨GetSpatialReference d, spatial_ref, tpf⟩
  let resolution := GetNativeResolution d (some transform)
    maximum_resolution h
  let extents := GetTiledExtents d (some transform) resolution
  let te : List Arg :=
    [.lit "-te", .q extents.lower_left.x, .q extents.lower_left.y,
     .q extents.upper_right.x, .q extents.upper_right.y]
  let num_tiles := GetTilesCount spatial_ref extents resolution
  let ts : List Arg := [.lit "-ts", .i (num_tiles.1 * 256),
    .i (num_tiles.2 * 256)]
  let nodata_values := d.bandNoData
  let nodataArgs : List Arg :=
    if nodata_values.any pyTruthyNoData then
      [.lit "-dstnodata", .nodataText nodata_values]
    else []
  pure (base ++ resamplingArgs ++ te ++ ts ++ nodataArgs ++
    [.lit inputfile, .lit "/dev/stdout"])

/- ---------------------------------------------------------------------
   Band.IncrementValue (gdal.py:326-361).
   --------------------------------------------------------------------- -/

/-- The numpy integer pixel types `Band.NumPyDataType` can produce
(gdal.py:277-302). -/
inductive NumPyIntType where
  | int8 | uint8 | int16 | uint16 | int32 | uint32
deriving DecidableEq, Repr

/-- The numpy floating pixel types `Band.NumPyDataType` can produce. -/
inductive NumPyFloatType where
  | float32 | float64
deriving DecidableEq, Repr

/-- A numpy pixel type: `issubclass(datatype, numpy.integer)` versus
`issubclass(datatype, numpy.floating)`. -/
inductive NumPyDataType where
  | integer (t : NumPyIntType) : NumPyDataType
  | floating (t : NumPyFloatType) : NumPyDataType
deriving DecidableEq, Repr

/-- `numpy.iinfo(datatype).min`. -/
def iinfoMin : NumPyIntType → ℤ
  | .int8 => -128
  | .uint8 => 0
  | .int16 => -32768
  | .uint16 => 0
  | .int32 => -2147483648
  | .uint32 => 0

/-- `numpy.iinfo(datatype).max`. -/
def iinfoMax : NumPyIntType → ℤ
  | .int8 => 127
  | .uint8 => 255
  | .int16 => 32767
  | .uint16 => 65535
  | .int32 => 2147483647
  | .uint32 => 4294967295

/-- `numpy.finfo(datatype).max`, the largest finite value of the format, as
an exact rational. -/
def finfoMax : NumPyFloatType → ℚ
  | .float32 => (2 ^ 24 - 1) * 2 ^ 104
  | .float64 => (2 ^ 53 - 1) * 2 ^ 971

/-- An IEEE floating-point value as `IncrementValue` observes it: a finite
value (exact), an infinity, or NaN. -/
inductive FloatVal where
  | fin (q : ℚ) : FloatVal
  | inf : FloatVal
  | negInf : FloatVal
  | nan : FloatVal
deriving DecidableEq, Repr

/-- A Python value passed to `IncrementValue`: an `int`/`long`/
`numpy.integer`, a `float`/`numpy.floating`, or a value of any other type
(rejected by the `isinstance` guards). -/
inductive PyNum where
  | pint (n : ℤ) : PyNum
  | pfloat (v : FloatVal) : PyNum
  | other (repr : String) : PyNum
deriving DecidableEq, Repr

/-- Numeric equality of a float value and a rational (`value ==
numpy.finfo(datatype).max` for a float `value`; NaN and infinities compare
unequal to every finite value). -/
def floatValEqRat (v : FloatVal) (q : ℚ) : Bool :=
  match v with
  | .fin x => decide (x = q)
  | _ => false

/-- The numpy operations `IncrementValue` delegates to: the dtype cast
`datatype(value)` and `numpy.nextafter`.  Both are external numpy
library functions, modelled opaquely. -/
structure NumpyOps where
  cast : NumPyFloatType → FloatVal → FloatVal
  nextafter : NumPyFloatType → FloatVal → FloatVal → FloatVal

/-- The failures of `Band.IncrementValue`: the `isinstance` `TypeError`
and the range `ValueError`. -/
inductive IncrementError where
  | typeError (message : String) : IncrementError
  | valueError (message : String) : IncrementError
deriving DecidableEq, Repr

/-- `Band.IncrementValue` (gdal.py:326-361) for a band whose
`NumPyDataType` is `ty`: integer types check the value's type and range,
then saturate at the maximum and otherwise add one; floating types return
infinity at the format's largest finite value and otherwise defer to
`numpy.nextafter` toward infinity. -/
def IncrementValue (ops : NumpyOps) (ty : NumPyDataType) (value : PyNum) :
    Except IncrementError PyNum :=
  match ty with
  | .integer it =>
      match value with
      | .pint n =>
          if ¬ (iinfoMin it ≤ n ∧ n ≤ iinfoMax it) then
            .error (.valueError "value must be between min and max")
          else if n = iinfoMax it then .ok (.pint (iinfoMax it))
          else .ok (.pint (n + 1))
      | _ => .error (.typeError "value must be compatible with datatype")
  | .floating ft =>
      match value with
      | .pint n =>
          if (n : ℚ) = finfoMax ft then .ok (.pfloat .inf)
          else .ok (.pfloat (ops.nextafter ft (ops.cast ft (.fin (n : ℚ)))
            (ops.cast ft .inf)))
      | .pfloat x =>
          if floatValEqRat x (finfoMax ft) then .ok (.pfloat .inf)
          else .ok (.pfloat (ops.nextafter ft (ops.cast ft x)
            (ops.cast ft .inf)))
      | .other _ =>
          .error (.typeError "value must be compatible with datatype")

/- ---------------------------------------------------------------------
   Concrete fixtures used to exercise the definitions: a projected
   reference whose circumference is exactly 1 map unit, a tile-aligned
   quarter-world raster, a raster lying entirely outside the world
   extents, and variants carrying no-data declarations.
   --------------------------------------------------------------------- -/

/-- A projected spatial reference with both circumferences exactly 1:
`semi_major = semi_minor = 1 / (2*pi)`, linear unit 1. -/
def sr1 : SpatialReference :=
  ⟨true, 1, 1, 1 / (2 * qpi), 1 / (2 * qpi), "EPSG:3857"⟩

/-- A 256x256 raster of pixel size 1/512 covering the lower-left quarter of
the `sr1` world `[-1/2, 1/2] x [-1/2, 1/2]`: its extents are
`((-1/2, -1/2), (0, 0))` and it is exactly tile-aligned at resolution 1. -/
def d0 : Dataset :=
  ⟨256, 256, -(1/2), 1/512, 0, 0, 0, -(1/512), sr1, []⟩

/-- A 1x1 raster of pixel size 1 whose extents `((10, -1), (11, 0))` lie
entirely to the right of the `sr1` world extents. -/
def dOut : Dataset :=
  ⟨1, 1, 10, 1, 0, 0, 0, -1, sr1, []⟩

/-- The `d0` raster with a single band that declares the no-data value 0. -/
def d5 : Dataset :=
  ⟨256, 256, -(1/2), 1/512, 0, 0, 0, -(1/512), sr1, [some 0]⟩

/-- The `d0` raster with two bands: the first declares no-data 5, the
second declares none. -/
def dNod : Dataset :=
  ⟨256, 256, -(1/2), 1/512, 0, 0, 0, -(1/512), sr1, [some 5, none]⟩

/-- An identity point reprojection, modelling a GDAL transform between two
equivalent references. -/
def idTpf : ℚ → ℚ → ℚ × ℚ := fun x y => (x, y)

/-- A concrete instance of the opaque numpy operations. -/
def npOps0 : NumpyOps := ⟨fun _ v => v, fun _ a _ => a⟩

/-- A resampling-method list as advertised by a gdalwarp binary of
version >= 1.10 (`resampling_methods()`, gdal.py:222-247, queries it from
the engine's `--help` output): it includes `average` and `mode` beyond the
five entries of `RESAMPLING_METHODS`. -/
def gdalAdvertised : List String :=
  ["near", "bilinear", "cubic", "cubicspline", "lanczos", "average", "mode"]

/-- The spec's reading of the resampling validation (§4.3): the value is
rejected exactly when it is neither a recognized resampling enum member
nor a method name string the engine advertises.  Stated from the spec's
words for comparison against `validateResampling`. -/
def specResamplingRejected (advertised : List String)
    (a : ResamplingArg) : Prop :=
  match a with
  | .gra code => RESAMPLING_METHODS.find? (fun p => p.1 = code) = none
  | .name s => ¬ s ∈ advertised

instance specResamplingRejectedDec (advertised : List String)
    (a : ResamplingArg) : Decidable (specResamplingRejected advertised a) := by
  unfold specResamplingRejected
  cases a <;> exact inferInstance

/- ---------------------------------------------------------------------
   Shared helper lemmas.
   --------------------------------------------------------------------- -/

/-- Characterization of `GetNativeResolution` through the loop semantics:
it returns `z` when the exit condition holds at `z` and at no earlier
iteration. -/
theorem getNativeResolution_eq {d : Dataset}
    {t : Option CoordinateTransformation} {m : Option ℕ}
    (h : ∃ z, natResStop d t m z) {z : ℕ} (hz : natResStop d t m z)
    (hmin : ∀ y < z, ¬ natResStop d t m y) :
    GetNativeResolution d t m h = z := by
  unfold GetNativeResolution
  exact (Nat.find_eq_iff h).mpr ⟨hz, hmin⟩

theorem snapLow_le (a t : ℚ) (ht : 0 < t) : a - qmod a t ≤ a := by
  have := qmod_nonneg a ht
  linarith

theorem snapHigh_ge (a t : ℚ) (ht : 0 < t) : a ≤ a + qmod (-a) t := by
  have := qmod_nonneg (-a) ht
  linarith

theorem snapLow_mult (a t : ℚ) : a - qmod a t = t * ⌊a / t⌋ := by
  unfold qmod
  ring

theorem snapHigh_mult (a t : ℚ) :
    a + qmod (-a) t = t * ((-⌊-a / t⌋ : ℤ) : ℚ) := by
  unfold qmod
  push_cast
  ring

theorem snapLow_fixed {t : ℚ} (k : ℤ) (ht : t ≠ 0) :
    t * (k : ℚ) - qmod (t * k) t = t * k := by
  rw [qmod_int_mul k ht]
  ring

theorem snapHigh_fixed {t : ℚ} (k : ℤ) (ht : t ≠ 0) :
    t * (k : ℚ) + qmod (-(t * k)) t = t * k := by
  have h : -(t * (k : ℚ)) = t * ((-k : ℤ) : ℚ) := by
    push_cast
    ring
  rw [h, qmod_int_mul (-k) ht]
  ring

/-- Idempotence of the snap-then-clamp computation on a lower edge, in a
single axis: `t` is the tile dimension, `off` the origin offset, `w` the
world lower bound (whose offset image is a tile multiple). -/
theorem axisLow_idem (t off w x : ℚ) (ht : 0 < t)
    (hw : ∃ k : ℤ, w + off = t * k) :
    max ((max (x + off - qmod (x + off) t - off) w + off)
          - qmod (max (x + off - qmod (x + off) t - off) w + off) t - off) w
      = max (x + off - qmod (x + off) t - off) w := by
  obtain ⟨kw, hkw⟩ := hw
  have hmax : max (x + off - qmod (x + off) t - off) w + off
      = max (x + off - qmod (x + off) t) (w + off) := by
    rw [← max_add_add_right]
    ring_nf
  have hmult : ∃ m : ℤ, max (x + off - qmod (x + off) t) (w + off)
      = t * m := by
    rcases max_cases (x + off - qmod (x + off) t) (w + off) with h | h
    · exact ⟨⌊(x + off) / t⌋, by rw [h.1, snapLow_mult]⟩
    · exact ⟨kw, by rw [h.1, hkw]⟩
  obtain ⟨m, hm⟩ := hmult
  rw [hmax, hm, snapLow_fixed m (ne_of_gt ht), ← hm, hmax.symm]
  have hge : w ≤ max (x + off - qmod (x + off) t - off) w := le_max_right _ _
  rw [add_sub_cancel_right]
  exact max_eq_left hge

/-- Idempotence of the snap-then-clamp computation on an upper edge. -/
theorem axisHigh_idem (t off w x : ℚ) (ht : 0 < t)
    (hw : ∃ k : ℤ, w + off = t * k) :
    min ((min (x + off + qmod (-(x + off)) t - off) w + off)
          + qmod (-(min (x + off + qmod (-(x + off)) t - off) w + off)) t
          - off) w
      = min (x + off + qmod (-(x + off)) t - off) w := by
  obtain ⟨kw, hkw⟩ := hw
  have hmin : min (x + off + qmod (-(x + off)) t - off) w + off
      = min (x + off + qmod (-(x + off)) t) (w + off) := by
    rw [← min_add_add_right]
    ring_nf
  have hmult : ∃ m : ℤ, min (x + off + qmod (-(x + off)) t) (w + off)
      = t * m := by
    rcases min_cases (x + off + qmod (-(x + off)) t) (w + off) with h | h
    · exact ⟨-⌊-(x + off) / t⌋, by rw [h.1, snapHigh_mult]⟩
    · exact ⟨kw, by rw [h.1, hkw]⟩
  obtain ⟨m, hm⟩ := hmult
  rw [hmin, hm, snapHigh_fixed m (ne_of_gt ht), ← hm, hmin.symm]
  have hge : min (x + off + qmod (-(x + off)) t - off) w ≤ w :=
    min_le_right _ _
  rw [add_sub_cancel_right]
  exact min_eq_left hge

/-- Bridge: the lower-left x coordinate computed by `snapExtentsToTiles`. -/
theorem snap_ll_x (sr : SpatialReference) (res : ℕ) (e : Extents) :
    (snapExtentsToTiles sr res e).lower_left.x =
      max (e.lower_left.x + GetMajorCircumference sr / 2
            - qmod (e.lower_left.x + GetMajorCircumference sr / 2)
                (GetTileDimensions sr res).1
            - GetMajorCircumference sr / 2)
        (GetWorldExtents sr).lower_left.x := rfl

/-- Bridge: the lower-left y coordinate computed by `snapExtentsToTiles`. -/
theorem snap_ll_y (sr : SpatialReference) (res : ℕ) (e : Extents) :
    (snapExtentsToTiles sr res e).lower_left.y =
      max (e.lower_left.y + minorOffsetOf sr
            - qmod (e.lower_left.y + minorOffsetOf sr)
                (GetTileDimensions sr res).2
            - minorOffsetOf sr)
        (GetWorldExtents sr).lower_left.y := rfl

/-- Bridge: the upper-right x coordinate computed by `snapExtentsToTiles`. -/
theorem snap_ur_x (sr : SpatialReference) (res : ℕ) (e : Extents) :
    (snapExtentsToTiles sr res e).upper_right.x =
      min (e.upper_right.x + GetMajorCircumference sr / 2
            + qmod (-(e.upper_right.x + GetMajorCircumference sr / 2))
                (GetTileDimensions sr res).1
            - GetMajorCircumference sr / 2)
        (GetWorldExtents sr).upper_right.x := rfl

/-- Bridge: the upper-right y coordinate computed by `snapExtentsToTiles`. -/
theorem snap_ur_y (sr : SpatialReference) (res : ℕ) (e : Extents) :
    (snapExtentsToTiles sr res e).upper_right.y =
      min (e.upper_right.y + minorOffsetOf sr
            + qmod (-(e.upper_right.y + minorOffsetOf sr))
                (GetTileDimensions sr res).2
            - minorOffsetOf sr)
        (GetWorldExtents sr).upper_right.y := rfl

/-- Tile width is positive when the major circumference is. -/
theorem tileWidth_pos (sr : SpatialReference) (res : ℕ)
    (h : 0 < GetMajorCircumference sr) : 0 < (GetTileDimensions sr res).1 := by
  unfold GetTileDimensions
  cases hp : sr.isProjected <;> simp [hp] <;> positivity

/-- Tile height is positive when the minor circumference is. -/
theorem tileHeight_pos (sr : SpatialReference) (res : ℕ)
    (h : 0 < GetMinorCircumference sr) :
    0 < (GetTileDimensions sr res).2 := by
  unfold GetTileDimensions
  cases hp : sr.isProjected <;> simp [hp] <;> positivity

/-- The offset image of the world's lower-left x edge is the tile multiple
zero. -/
theorem world_ll_x_mult (sr : SpatialReference) (res : ℕ) :
    ∃ k : ℤ, (GetWorldExtents sr).lower_left.x
      + GetMajorCircumference sr / 2 = (GetTileDimensions sr res).1 * k := by
  exact ⟨0, by simp [GetWorldExtents]⟩

/-- The offset image of the world's upper-right x edge is a tile multiple
(the full major circumference). -/
theorem world_ur_x_mult (sr : SpatialReference) (res : ℕ) :
    ∃ k : ℤ, (GetWorldExtents sr).upper_right.x
      + GetMajorCircumference sr / 2 = (GetTileDimensions sr res).1 * k := by
  unfold GetWorldExtents GetTileDimensions
  cases hp : sr.isProjected
  · refine ⟨2 ^ (res + 1), ?_⟩
    simp only [hp]
    push_cast
    have hne : (2 : ℚ) ^ res * 2 ≠ 0 := by positivity
    rw [div_div, pow_succ, div_mul_cancel₀ _ hne]
    ring
  · refine ⟨2 ^ res, ?_⟩
    simp only [hp]
    push_cast
    have hne : (2 : ℚ) ^ res ≠ 0 := by positivity
    rw [div_mul_cancel₀ _ hne]
    ring

/-- The offset image of the world's lower-left y edge is the tile multiple
zero. -/
theorem world_ll_y_mult (sr : SpatialReference) (res : ℕ) :
    ∃ k : ℤ, (GetWorldExtents sr).lower_left.y + minorOffsetOf sr
      = (GetTileDimensions sr res).2 * k := by
  refine ⟨0, ?_⟩
  unfold GetWorldExtents minorOffsetOf
  cases hp : sr.isProjected <;> simp [hp] <;> ring

/-- The offset image of the world's upper-right y edge is a tile multiple. -/
theorem world_ur_y_mult (sr : SpatialReference) (res : ℕ) :
    ∃ k : ℤ, (GetWorldExtents sr).upper_right.y + minorOffsetOf sr
      = (GetTileDimensions sr res).2 * k := by
  refine ⟨2 ^ res, ?_⟩
  unfold GetWorldExtents minorOffsetOf GetTileDimensions
  cases hp : sr.isProjected <;> simp only [hp] <;> push_cast <;>
    field_simp <;> ring

/-- The clamped lower edge, shifted by the offset, is a tile multiple. -/
theorem axisLow_mult (t off w x : ℚ) (hw : ∃ k : ℤ, w + off = t * k) :
    ∃ k : ℤ, max (x + off - qmod (x + off) t - off) w + off = t * k := by
  obtain ⟨kw, hkw⟩ := hw
  rcases max_cases (x + off - qmod (x + off) t - off) w with h | h
  · refine ⟨⌊(x + off) / t⌋, ?_⟩
    rw [h.1]
    have := snapLow_mult (x + off) t
    linarith
  · exact ⟨kw, by rw [h.1]; exact hkw⟩

/-- The clamped upper edge, shifted by the offset, is a tile multiple. -/
theorem axisHigh_mult (t off w x : ℚ) (hw : ∃ k : ℤ, w + off = t * k) :
    ∃ k : ℤ, min (x + off + qmod (-(x + off)) t - off) w + off = t * k := by
  obtain ⟨kw, hkw⟩ := hw
  rcases min_cases (x + off + qmod (-(x + off)) t - off) w with h | h
  · refine ⟨-⌊-(x + off) / t⌋, ?_⟩
    rw [h.1]
    have := snapHigh_mult (x + off) t
    push_cast at this ⊢
    linarith
  · exact ⟨kw, by rw [h.1]; exact hkw⟩

/-- Two extents with equal corner coordinates are equal. -/
theorem Extents.ext4 (p q : Extents) (h1 : p.lower_left.x = q.lower_left.x)
    (h2 : p.lower_left.y = q.lower_left.y)
    (h3 : p.upper_right.x = q.upper_right.x)
    (h4 : p.upper_right.y = q.upper_right.y) : p = q := by
  obtain ⟨⟨a, b⟩, ⟨c, d⟩⟩ := p
  obtain ⟨⟨a2, b2⟩, ⟨c2, d2⟩⟩ := q
  simp_all

/- ---------------------------------------------------------------------
   Evaluation lemmas for the fixtures (kernel reduction is unavailable for
   rational arithmetic, so the concrete values are established by
   `norm_num`).
   --------------------------------------------------------------------- -/

theorem sr1_major : GetMajorCircumference sr1 = 1 := by
  unfold GetMajorCircumference sr1 qpi
  norm_num

theorem sr1_minor : GetMinorCircumference sr1 = 1 := by
  unfold GetMinorCircumference sr1 qpi
  norm_num

theorem sr1_major_pos : 0 < GetMajorCircumference sr1 := by
  rw [sr1_major]
  norm_num

theorem sr1_minor_pos : 0 < GetMinorCircumference sr1 := by
  rw [sr1_minor]
  norm_num

/- ---------------------------------------------------------------------
   C9: GetTiledExtents is idempotent.
   --------------------------------------------------------------------- -/

/-- C9: for every dataset, transform and zoom (with positive world
circumferences in the destination projection), applying the tile-snapping
computation of `GetTiledExtents` at the same zoom to a box that is already
the output of `GetTiledExtents` returns that same box. -/
theorem getTiledExtents_idem (d : Dataset)
    (t : Option CoordinateTransformation) (res : ℕ)
    (hmaj : 0 < GetMajorCircumference (dstRefOf d t))
    (hmin : 0 < GetMinorCircumference (dstRefOf d t)) :
    snapExtentsToTiles (dstRefOf d t) res (GetTiledExtents d t res)
      = GetTiledExtents d t res := by
  have htw := tileWidth_pos (dstRefOf d t) res hmaj
  have hth := tileHeight_pos (dstRefOf d t) res hmin
  apply Extents.ext4
  · rw [snap_ll_x]
    conv_lhs =>
      rw [GetTiledExtents, snap_ll_x]
    rw [GetTiledExtents, snap_ll_x]
    exact axisLow_idem _ _ _ _ htw (world_ll_x_mult _ res)
  · rw [snap_ll_y]
    conv_lhs =>
      rw [GetTiledExtents, snap_ll_y]
    rw [GetTiledExtents, snap_ll_y]
    exact axisLow_idem _ _ _ _ hth (world_ll_y_mult _ res)
  · rw [snap_ur_x]
    conv_lhs =>
      rw [GetTiledExtents, snap_ur_x]
    rw [GetTiledExtents, snap_ur_x]
    exact axisHigh_idem _ _ _ _ htw (world_ur_x_mult _ res)
  · rw [snap_ur_y]
    conv_lhs =>
      rw [GetTiledExtents, snap_ur_y]
    rw [GetTiledExtents, snap_ur_y]
    exact axisHigh_idem _ _ _ _ hth (world_ur_y_mult _ res)

/-- Witness for C9: idempotence holds at the concrete aligned raster `d0`
and resolution 1. -/
theorem getTiledExtents_idem_witness :
    snapExtentsToTiles (dstRefOf d0 none) 1 (GetTiledExtents d0 none 1)
      = GetTiledExtents d0 none 1 :=
  getTiledExtents_idem d0 none 1 sr1_major_pos sr1_minor_pos

/- ---------------------------------------------------------------------
   C2: GetTiledExtents — snapping, clamping, and the world-bounds claim.
   --------------------------------------------------------------------- -/

/-- Extents computed by `GetExtents` are ordered on the x axis. -/
theorem getExtents_le_x (d : Dataset)
    (t : Option CoordinateTransformation) :
    (GetExtents d t).lower_left.x ≤ (GetExtents d t).upper_right.x := by
  unfold GetExtents
  dsimp only
  exact ((inf_le_left.trans inf_le_left).trans inf_le_left).trans
    ((le_sup_left.trans le_sup_left).trans le_sup_left)

/-- Extents computed by `GetExtents` are ordered on the y axis. -/
theorem getExtents_le_y (d : Dataset)
    (t : Option CoordinateTransformation) :
    (GetExtents d t).lower_left.y ≤ (GetExtents d t).upper_right.y := by
  unfold GetExtents
  dsimp only
  exact ((inf_le_left.trans inf_le_left).trans inf_le_left).trans
    ((le_sup_left.trans le_sup_left).trans le_sup_left)

/-- The world extents are ordered on the x axis. -/
theorem worldExtents_le_x (sr : SpatialReference)
    (h : 0 < GetMajorCircumference sr) :
    (GetWorldExtents sr).lower_left.x ≤ (GetWorldExtents sr).upper_right.x := by
  unfold GetWorldExtents
  simp only
  linarith

/-- The world extents are ordered on the y axis. -/
theorem worldExtents_le_y (sr : SpatialReference)
    (h : 0 < GetMinorCircumference sr) :
    (GetWorldExtents sr).lower_left.y ≤ (GetWorldExtents sr).upper_right.y := by
  unfold GetWorldExtents
  cases hp : sr.isProjected <;> simp only [hp] <;> simp <;> linarith

/-- Counterexample for C2 as stated: for the raster `dOut`, whose extents
`((10, -1), (11, 0))` lie entirely outside the world extents
`[-1/2, 1/2] x [-1/2, 1/2]` of its projection, `GetTiledExtents` at
resolution 0 returns `((19/2, -1/2), (1/2, 1/2))`: its lower-left x edge
exceeds its upper-right x edge and lies outside the representable world. -/
theorem getTiledExtents_world_cex :
    GetTiledExtents dOut none 0 = ⟨⟨19/2, -(1/2)⟩, ⟨1/2, 1/2⟩⟩ ∧
    ¬ ((GetTiledExtents dOut none 0).lower_left.x ≤
        (GetTiledExtents dOut none 0).upper_right.x) ∧
    (GetWorldExtents (dstRefOf dOut none)).upper_right.x <
      (GetTiledExtents dOut none 0).lower_left.x := by
  have hev : GetTiledExtents dOut none 0 = ⟨⟨19/2, -(1/2)⟩, ⟨1/2, 1/2⟩⟩ := by
    norm_num [GetTiledExtents, snapExtentsToTiles, qmod, OffsetPoint,
      minorOffsetOf, GetTileDimensions, GetWorldExtents,
      GetMajorCircumference, GetMinorCircumference, dstRefOf,
      GetSpatialReference, GetExtents, PixelCoordinates, dOut, sr1, qpi,
      min_def, max_def, Extents.mk.injEq, XY.mk.injEq]
  refine ⟨hev, ?_, ?_⟩
  · rw [hev]
    norm_num
  · rw [hev]
    have h : dstRefOf dOut none = sr1 := rfl
    rw [h, show (GetWorldExtents sr1).upper_right.x
      = GetMajorCircumference sr1 / 2 from rfl, sr1_major]
    norm_num

/-- C2 (amended): `GetTiledExtents` shifts both corners by `OffsetPoint`
(which maps the world corner to the arithmetic zero), rounds the shifted
lower-left corner down and the shifted upper-right corner up to tile
multiples with floor-style modulo (correct for negative coordinates: the
snapped box always contains the geometric extents), undoes the shift, and
clamps every edge to the world extents; provided the geometric extents
intersect the world extents, the returned box lies inside the
representable world and satisfies `lower_left ≤ upper_right`
componentwise. -/
theorem getTiledExtents_spec (d : Dataset)
    (t : Option CoordinateTransformation) (res : ℕ)
    (hmaj : 0 < GetMajorCircumference (dstRefOf d t))
    (hmin : 0 < GetMinorCircumference (dstRefOf d t))
    (h1 : (GetExtents d t).lower_left.x ≤
      (GetWorldExtents (dstRefOf d t)).upper_right.x)
    (h2 : (GetWorldExtents (dstRefOf d t)).lower_left.x ≤
      (GetExtents d t).upper_right.x)
    (h3 : (GetExtents d t).lower_left.y ≤
      (GetWorldExtents (dstRefOf d t)).upper_right.y)
    (h4 : (GetWorldExtents (dstRefOf d t)).lower_left.y ≤
      (GetExtents d t).upper_right.y) :
    OffsetPoint (dstRefOf d t) (GetWorldExtents (dstRefOf d t)).lower_left.x
        (GetWorldExtents (dstRefOf d t)).lower_left.y false = (0, 0) ∧
    ((GetExtents d t).lower_left.x + GetMajorCircumference (dstRefOf d t) / 2
      - qmod ((GetExtents d t).lower_left.x
          + GetMajorCircumference (dstRefOf d t) / 2)
          (GetTileDimensions (dstRefOf d t) res).1
      - GetMajorCircumference (dstRefOf d t) / 2
      ≤ (GetExtents d t).lower_left.x) ∧
    ((GetExtents d t).lower_left.y + minorOffsetOf (dstRefOf d t)
      - qmod ((GetExtents d t).lower_left.y + minorOffsetOf (dstRefOf d t))
          (GetTileDimensions (dstRefOf d t) res).2
      - minorOffsetOf (dstRefOf d t) ≤ (GetExtents d t).lower_left.y) ∧
    ((GetExtents d t).upper_right.x ≤
      (GetExtents d t).upper_right.x
        + GetMajorCircumference (dstRefOf d t) / 2
        + qmod (-((GetExtents d t).upper_right.x
            + GetMajorCircumference (dstRefOf d t) / 2))
            (GetTileDimensions (dstRefOf d t) res).1
        - GetMajorCircumference (dstRefOf d t) / 2) ∧
    ((GetExtents d t).upper_right.y ≤
      (GetExtents d t).upper_right.y + minorOffsetOf (dstRefOf d t)
        + qmod (-((GetExtents d t).upper_right.y
            + minorOffsetOf (dstRefOf d t)))
            (GetTileDimensions (dstRefOf d t) res).2
        - minorOffsetOf (dstRefOf d t)) ∧
    (∃ k : ℤ, (GetTiledExtents d t res).lower_left.x
      + GetMajorCircumference (dstRefOf d t) / 2
      = (GetTileDimensions (dstRefOf d t) res).1 * k) ∧
    (∃ k : ℤ, (GetTiledExtents d t res).lower_left.y
      + minorOffsetOf (dstRefOf d t)
      = (GetTileDimensions (dstRefOf d t) res).2 * k) ∧
    (∃ k : ℤ, (GetTiledExtents d t res).upper_right.x
      + GetMajorCircumference (dstRefOf d t) / 2
      = (GetTileDimensions (dstRefOf d t) res).1 * k) ∧
    (∃ k : ℤ, (GetTiledExtents d t res).upper_right.y
      + minorOffsetOf (dstRefOf d t)
      = (GetTileDimensions (dstRefOf d t) res).2 * k) ∧
    (GetWorldExtents (dstRefOf d t)).lower_left.x ≤
      (GetTiledExtents d t res).lower_left.x ∧
    (GetTiledExtents d t res).upper_right.x ≤
      (GetWorldExtents (dstRefOf d t)).upper_right.x ∧
    (GetWorldExtents (dstRefOf d t)).lower_left.y ≤
      (GetTiledExtents d t res).lower_left.y ∧
    (GetTiledExtents d t res).upper_right.y ≤
      (GetWorldExtents (dstRefOf d t)).upper_right.y ∧
    (GetTiledExtents d t res).lower_left.x ≤
      (GetTiledExtents d t res).upper_right.x ∧
    (GetTiledExtents d t res).lower_left.y ≤
      (GetTiledExtents d t res).upper_right.y := by
  have htw := tileWidth_pos (dstRefOf d t) res hmaj
  have hth := tileHeight_pos (dstRefOf d t) res hmin
  have hex := getExtents_le_x d t
  have hey := getExtents_le_y d t
  have hwx := worldExtents_le_x (dstRefOf d t) hmaj
  have hwy := worldExtents_le_y (dstRefOf d t) hmin
  refine ⟨?_, ?_, ?_, ?_, ?_, ?_, ?_, ?_, ?_, ?_, ?_, ?_, ?_, ?_, ?_⟩
  · unfold OffsetPoint GetWorldExtents minorOffsetOf
    cases hp : (dstRefOf d t).isProjected <;> simp [hp] <;> ring_nf
  · have := snapLow_le ((GetExtents d t).lower_left.x
      + GetMajorCircumference (dstRefOf d t) / 2)
      (GetTileDimensions (dstRefOf d t) res).1 htw
    linarith
  · have := snapLow_le ((GetExtents d t).lower_left.y
      + minorOffsetOf (dstRefOf d t))
      (GetTileDimensions (dstRefOf d t) res).2 hth
    linarith
  · have := snapHigh_ge ((GetExtents d t).upper_right.x
      + GetMajorCircumference (dstRefOf d t) / 2)
      (GetTileDimensions (dstRefOf d t) res).1 htw
    linarith
  · have := snapHigh_ge ((GetExtents d t).upper_right.y
      + minorOffsetOf (dstRefOf d t))
      (GetTileDimensions (dstRefOf d t) res).2 hth
    linarith
  · rw [GetTiledExtents, snap_ll_x]
    exact axisLow_mult _ _ _ _ (world_ll_x_mult _ res)
  · rw [GetTiledExtents, snap_ll_y]
    exact axisLow_mult _ _ _ _ (world_ll_y_mult _ res)
  · rw [GetTiledExtents, snap_ur_x]
    exact axisHigh_mult _ _ _ _ (world_ur_x_mult _ res)
  · rw [GetTiledExtents, snap_ur_y]
    exact axisHigh_mult _ _ _ _ (world_ur_y_mult _ res)
  · rw [GetTiledExtents, snap_ll_x]
    exact le_max_right _ _
  · rw [GetTiledExtents, snap_ur_x]
    exact min_le_right _ _
  · rw [GetTiledExtents, snap_ll_y]
    exact le_max_right _ _
  · rw [GetTiledExtents, snap_ur_y]
    exact min_le_right _ _
  · rw [GetTiledExtents, snap_ll_x, snap_ur_x]
    have hlo := snapLow_le ((GetExtents d t).lower_left.x
      + GetMajorCircumference (dstRefOf d t) / 2)
      (GetTileDimensions (dstRefOf d t) res).1 htw
    have hhi := snapHigh_ge ((GetExtents d t).upper_right.x
      + GetMajorCircumference (dstRefOf d t) / 2)
      (GetTileDimensions (dstRefOf d t) res).1 htw
    refine max_le (le_min (by linarith) (by linarith))
      (le_min (by linarith) hwx)
  · rw [GetTiledExtents, snap_ll_y, snap_ur_y]
    have hlo := snapLow_le ((GetExtents d t).lower_left.y
      + minorOffsetOf (dstRefOf d t))
      (GetTileDimensions (dstRefOf d t) res).2 hth
    have hhi := snapHigh_ge ((GetExtents d t).upper_right.y
      + minorOffsetOf (dstRefOf d t))
      (GetTileDimensions (dstRefOf d t) res).2 hth
    refine max_le (le_min (by linarith) (by linarith))
      (le_min (by linarith) hwy)

theorem sr1_world : GetWorldExtents sr1 = ⟨⟨-(1/2), -(1/2)⟩, ⟨1/2, 1/2⟩⟩ := by
  unfold GetWorldExtents
  rw [sr1_major, sr1_minor]
  norm_num [sr1, Extents.mk.injEq, XY.mk.injEq]

theorem d0_extents : GetExtents d0 none = ⟨⟨-(1/2), -(1/2)⟩, ⟨0, 0⟩⟩ := by
  norm_num [GetExtents, PixelCoordinates, d0, min_def, max_def,
    Extents.mk.injEq, XY.mk.injEq]

/-- Witness for C2 (amended): at the aligned quarter-world raster `d0` and
resolution 1, the tiled extents are ordered componentwise. -/
theorem getTiledExtents_spec_witness :
    (GetTiledExtents d0 none 1).lower_left.x ≤
      (GetTiledExtents d0 none 1).upper_right.x ∧
    (GetTiledExtents d0 none 1).lower_left.y ≤
      (GetTiledExtents d0 none 1).upper_right.y := by
  have h := getTiledExtents_spec d0 none 1 sr1_major_pos sr1_minor_pos
    (by rw [d0_extents, show dstRefOf d0 none = sr1 from rfl, sr1_world]
        norm_num)
    (by rw [d0_extents, show dstRefOf d0 none = sr1 from rfl, sr1_world]
        norm_num)
    (by rw [d0_extents, show dstRefOf d0 none = sr1 from rfl, sr1_world]
        norm_num)
    (by rw [d0_extents, show dstRefOf d0 none = sr1 from rfl, sr1_world]
        norm_num)
  obtain ⟨-, -, -, -, -, -, -, -, -, -, -, -, -, h14, h15⟩ := h
  exact ⟨h14, h15⟩

/- ---------------------------------------------------------------------
   C1: GetNativeResolution.
   --------------------------------------------------------------------- -/

/-- C1: `GetNativeResolution` returns the smallest zoom level `z ≥ 0` at
which the destination pixel size exceeds the transformed source pixel size
by at most the relative tolerance `dst_pixel_size * 1e-6`; and when a
maximum is supplied, it returns the maximum itself if the scan reaches it
before that condition holds, and the smallest satisfying zoom otherwise. -/
theorem getNativeResolution_spec (d : Dataset)
    (t : Option CoordinateTransformation) :
    (∀ h : ∃ z, natResStop d t none z,
      natResCond d t (GetNativeResolution d t none h) ∧
      ∀ z' < GetNativeResolution d t none h, ¬ natResCond d t z') ∧
    (∀ (m : ℕ) (h : ∃ z, natResStop d t (some m) z),
      ((∀ z' < m, ¬ natResCond d t z') →
        GetNativeResolution d t (some m) h = m) ∧
      (∀ z0, z0 < m → natResCond d t z0 → (∀ z' < z0, ¬ natResCond d t z') →
        GetNativeResolution d t (some m) h = z0)) := by
  constructor
  · intro h
    constructor
    · have hspec := Nat.find_spec h
      rcases hspec with h' | h'
      · exact absurd h' (by simp)
      · exact h'
    · intro z' hz' hc
      exact Nat.find_min h hz' (Or.inr hc)
  · intro m h
    constructor
    · intro hall
      refine getNativeResolution_eq h (Or.inl (le_refl m)) ?_
      intro y hy hs
      rcases hs with h' | h'
      · exact absurd h' (by omega)
      · exact hall y hy h'
    · intro z0 hz0 hc hmin
      refine getNativeResolution_eq h (Or.inr hc) ?_
      intro y hy hs
      rcases hs with h' | h'
      · exact absurd h' (by omega)
      · exact hmin y hy h'

/-- The native-resolution scan of `d0` terminates (the exit condition
holds at zoom 1, where the tile pixel size `1/512` equals the source pixel
size). -/
theorem natResStop_d0 : ∃ z, natResStop d0 none none z := by
  refine ⟨1, Or.inr ?_⟩
  norm_num [natResCond, dstPixelSize, srcPixelSize, dstRefOf,
    GetSpatialReference, GetPixelDimensions, GetTileDimensions, TILE_SIDE,
    GetMajorCircumference, GetMinorCircumference, d0, sr1, qpi, abs,
    max_def, min_def]

/-- With `maximum = 0` the scan of `d0` stops immediately. -/
theorem natResStop_d0_max0 : ∃ z, natResStop d0 none (some 0) z :=
  ⟨0, Or.inl (le_refl 0)⟩

/-- Witness for C1: at the concrete raster `d0` the returned resolution
satisfies the pixel-size condition, and a supplied maximum of 0 is
returned as-is. -/
theorem getNativeResolution_witness :
    natResCond d0 none (GetNativeResolution d0 none none natResStop_d0) ∧
    GetNativeResolution d0 none (some 0) natResStop_d0_max0 = 0 :=
  ⟨((getNativeResolution_spec d0 none).1 natResStop_d0).1,
   ((getNativeResolution_spec d0 none).2 0 natResStop_d0_max0).1
     (fun z' hz' => absurd hz' (Nat.not_lt_zero z'))⟩

/- ---------------------------------------------------------------------
   C3: GetTmsExtents.
   --------------------------------------------------------------------- -/

/-- Python `int()` of an exact tile-multiple quotient recovers the
multiplier. -/
theorem pyint_div_mult {tw : ℚ} (htw : 0 < tw) {v : ℚ} {a : ℤ}
    (ha : v = tw * a) : pyint (v / tw) = a := by
  rw [ha, mul_comm, mul_div_assoc, div_self (ne_of_gt htw), mul_one,
    pyint_intCast]

/-- Half-open index ranges against tile multiples: `k` lies in `[a, b)`
exactly when tile `k` lies between the two aligned edges. -/
theorem index_iff {tw : ℚ} (htw : 0 < tw) {lo hi : ℚ} {a b : ℤ}
    (hla : lo = tw * a) (hb : hi = tw * b) (k : ℤ) :
    (a ≤ k ∧ k < b) ↔ (lo ≤ tw * k ∧ tw * (k + 1) ≤ hi) := by
  rw [hla, hb]
  constructor
  · rintro ⟨hk1, hk2⟩
    refine ⟨mul_le_mul_of_nonneg_left (by exact_mod_cast hk1)
      (le_of_lt htw), ?_⟩
    have hk3 : (k + 1 : ℤ) ≤ b := hk2
    have : ((k : ℚ) + 1) ≤ (b : ℚ) := by exact_mod_cast hk3
    exact mul_le_mul_of_nonneg_left this (le_of_lt htw)
  · rintro ⟨hk1, hk2⟩
    have h1 : (a : ℚ) ≤ (k : ℚ) := le_of_mul_le_mul_left hk1 htw
    have h2 : ((k : ℚ) + 1) ≤ (b : ℚ) := le_of_mul_le_mul_left hk2 htw
    have h1' : a ≤ k := by exact_mod_cast h1
    have h2' : k + 1 ≤ b := by exact_mod_cast h2
    exact ⟨h1', by omega⟩

/-- C3: `GetTmsExtents` fails with the unaligned-input error exactly when
the native-resolution tiled extents do not almost-equal the raw geometric
extents to 2 decimal places; on success it returns integer tile indices
whose half-open ranges (lower-left included, upper-right excluded) tile
exactly the offset tiled extents in each axis. -/
theorem getTmsExtents_spec (d : Dataset)
    (t : Option CoordinateTransformation) (res : ℕ)
    (h : ∃ z, natResStop d t none z)
    (hmaj : 0 < GetMajorCircumference (dstRefOf d t))
    (hmin : 0 < GetMinorCircumference (dstRefOf d t)) :
    ((∃ err, GetTmsExtents d t res h = .error err) ↔
      ¬ almostEqual 2
        (GetTiledExtents d t (GetNativeResolution d t none h))
        (GetExtents d t)) ∧
    (∀ E, GetTmsExtents d t res h = .ok E →
      (∀ k : ℤ, (E.lower_left.x ≤ k ∧ k < E.upper_right.x) ↔
        ((GetTiledExtents d t res).lower_left.x
            + GetMajorCircumference (dstRefOf d t) / 2
            ≤ (GetTileDimensions (dstRefOf d t) res).1 * k ∧
         (GetTileDimensions (dstRefOf d t) res).1 * (k + 1)
            ≤ (GetTiledExtents d t res).upper_right.x
              + GetMajorCircumference (dstRefOf d t) / 2)) ∧
      (∀ k : ℤ, (E.lower_left.y ≤ k ∧ k < E.upper_right.y) ↔
        ((GetTiledExtents d t res).lower_left.y
            + minorOffsetOf (dstRefOf d t)
            ≤ (GetTileDimensions (dstRefOf d t) res).2 * k ∧
         (GetTileDimensions (dstRefOf d t) res).2 * (k + 1)
            ≤ (GetTiledExtents d t res).upper_right.y
              + minorOffsetOf (dstRefOf d t)))) := by
  have htw := tileWidth_pos (dstRefOf d t) res hmaj
  have hth := tileHeight_pos (dstRefOf d t) res hmin
  by_cases hal : almostEqual 2
      (GetTiledExtents d t (GetNativeResolution d t none h))
      (GetExtents d t)
  · have hok : GetTmsExtents d t res h = .ok
        ⟨⟨pyint (((GetTiledExtents d t res).lower_left.x
            + GetMajorCircumference (dstRefOf d t) / 2)
            / (GetTileDimensions (dstRefOf d t) res).1),
          pyint (((GetTiledExtents d t res).lower_left.y
            + minorOffsetOf (dstRefOf d t))
            / (GetTileDimensions (dstRefOf d t) res).2)⟩,
         ⟨pyint (((GetTiledExtents d t res).upper_right.x
            + GetMajorCircumference (dstRefOf d t) / 2)
            / (GetTileDimensions (dstRefOf d t) res).1),
          pyint (((GetTiledExtents d t res).upper_right.y
            + minorOffsetOf (dstRefOf d t))
            / (GetTileDimensions (dstRefOf d t) res).2)⟩⟩ := by
      unfold GetTmsExtents
      rw [if_neg (fun hc => hc hal)]
      rfl
    obtain ⟨a1, ha1⟩ : ∃ a : ℤ, (GetTiledExtents d t res).lower_left.x
        + GetMajorCircumference (dstRefOf d t) / 2
        = (GetTileDimensions (dstRefOf d t) res).1 * a := by
      rw [GetTiledExtents, snap_ll_x]
      exact axisLow_mult _ _ _ _ (world_ll_x_mult _ res)
    obtain ⟨a2, ha2⟩ : ∃ a : ℤ, (GetTiledExtents d t res).lower_left.y
        + minorOffsetOf (dstRefOf d t)
        = (GetTileDimensions (dstRefOf d t) res).2 * a := by
      rw [GetTiledExtents, snap_ll_y]
      exact axisLow_mult _ _ _ _ (world_ll_y_mult _ res)
    obtain ⟨b1, hb1⟩ : ∃ b : ℤ, (GetTiledExtents d t res).upper_right.x
        + GetMajorCircumference (dstRefOf d t) / 2
        = (GetTileDimensions (dstRefOf d t) res).1 * b := by
      rw [GetTiledExtents, snap_ur_x]
      exact axisHigh_mult _ _ _ _ (world_ur_x_mult _ res)
    obtain ⟨b2, hb2⟩ : ∃ b : ℤ, (GetTiledExtents d t res).upper_right.y
        + minorOffsetOf (dstRefOf d t)
        = (GetTileDimensions (dstRefOf d t) res).2 * b := by
      rw [GetTiledExtents, snap_ur_y]
      exact axisHigh_mult _ _ _ _ (world_ur_y_mult _ res)
    refine ⟨⟨fun ⟨err, herr⟩ => absurd (hok ▸ herr) (by simp),
      fun hcon => absurd hal hcon⟩, ?_⟩
    intro E hE
    rw [hok] at hE
    injection hE with hE
    subst hE
    constructor
    · intro k
      simp only [pyint_div_mult htw ha1, pyint_div_mult htw hb1]
      exact index_iff htw ha1 hb1 k
    · intro k
      simp only [pyint_div_mult hth ha2, pyint_div_mult hth hb2]
      exact index_iff hth ha2 hb2 k
  · have herr : GetTmsExtents d t res h =
        .error ⟨"Dataset is not aligned to TMS grid"⟩ := by
      unfold GetTmsExtents
      rw [if_pos hal]
    refine ⟨⟨fun _ => hal, fun _ => ⟨_, herr⟩⟩, ?_⟩
    intro E hE
    rw [herr] at hE
    exact absurd hE (by simp)

theorem sr1_tile1 : GetTileDimensions sr1 1 = (1/2, 1/2) := by
  unfold GetTileDimensions
  rw [sr1_major, sr1_minor]
  norm_num [sr1, Prod.ext_iff]

theorem sr1_minorOffset : minorOffsetOf sr1 = 1/2 := by
  unfold minorOffsetOf
  rw [sr1_minor]
  norm_num [sr1]

/-- The pixel-size condition of `d0` fails at zoom 0. -/
theorem d0_notCond0 : ¬ natResCond d0 none 0 := by
  norm_num [natResCond, dstPixelSize, srcPixelSize, dstRefOf,
    GetSpatialReference, GetPixelDimensions, GetTileDimensions, TILE_SIDE,
    GetMajorCircumference, GetMinorCircumference, d0, sr1, qpi, abs,
    max_def, min_def]

/-- The pixel-size condition of `d0` holds at zoom 1. -/
theorem d0_cond1 : natResCond d0 none 1 := by
  norm_num [natResCond, dstPixelSize, srcPixelSize, dstRefOf,
    GetSpatialReference, GetPixelDimensions, GetTileDimensions, TILE_SIDE,
    GetMajorCircumference, GetMinorCircumference, d0, sr1, qpi, abs,
    max_def, min_def]

/-- The native resolution of `d0` is 1. -/
theorem d0_native : GetNativeResolution d0 none none natResStop_d0 = 1 := by
  refine getNativeResolution_eq natResStop_d0 (Or.inr d0_cond1) ?_
  intro y hy hs
  have hy0 : y = 0 := by omega
  subst hy0
  rcases hs with h' | h'
  · exact h'
  · exact d0_notCond0 h'

/-- The tiled extents of `d0` at resolution 1 coincide with its geometric
extents. -/
theorem d0_tiled1 : GetTiledExtents d0 none 1
    = ⟨⟨-(1/2), -(1/2)⟩, ⟨0, 0⟩⟩ := by
  norm_num [GetTiledExtents, snapExtentsToTiles, qmod, OffsetPoint,
    minorOffsetOf, GetTileDimensions, GetWorldExtents,
    GetMajorCircumference, GetMinorCircumference, dstRefOf,
    GetSpatialReference, GetExtents, PixelCoordinates, d0, sr1, qpi,
    min_def, max_def, Extents.mk.injEq, XY.mk.injEq]

/-- The TMS tile-index extents of `d0` at resolution 1. -/
theorem d0_tms : GetTmsExtents d0 none 1 natResStop_d0
    = .ok ⟨⟨0, 0⟩, ⟨1, 1⟩⟩ := by
  have hal : almostEqual 2
      (GetTiledExtents d0 none (GetNativeResolution d0 none none
        natResStop_d0)) (GetExtents d0 none) := by
    rw [d0_native, d0_tiled1, d0_extents]
    norm_num [almostEqual]
  unfold GetTmsExtents
  rw [if_neg (fun hc => hc hal)]
  show Except.ok _ = _
  rw [d0_tiled1]
  norm_num [OffsetPoint, pyint, minorOffsetOf, GetTileDimensions,
    GetMajorCircumference, GetMinorCircumference, dstRefOf,
    GetSpatialReference, d0, sr1, qpi, ExtentsI.mk.injEq, XYI.mk.injEq]

/-- Witness for C3: the half-open index characterization of
`GetTmsExtents` instantiated at `d0`, resolution 1, tile index 0. -/
theorem getTmsExtents_witness :
    ((0 : ℤ) ≤ 0 ∧ (0 : ℤ) < 1) ↔
      ((GetTiledExtents d0 none 1).lower_left.x
          + GetMajorCircumference (dstRefOf d0 none) / 2
          ≤ (GetTileDimensions (dstRefOf d0 none) 1).1 * (0 : ℤ) ∧
       (GetTileDimensions (dstRefOf d0 none) 1).1 * ((0 : ℤ) + 1)
          ≤ (GetTiledExtents d0 none 1).upper_right.x
            + GetMajorCircumference (dstRefOf d0 none) / 2) :=
  (((getTmsExtents_spec d0 none 1 natResStop_d0 sr1_major_pos
    sr1_minor_pos).2 ⟨⟨0, 0⟩, ⟨1, 1⟩⟩ d0_tms).1 0)

/- ---------------------------------------------------------------------
   C4: pipeline.
   --------------------------------------------------------------------- -/

/-- Starting from a state whose live temp files are exactly `0..n-1` with
none closed, the step loop leaves a state of the same shape. -/
theorem runPipelineSteps_state {ε : Type}
    (rest : List (String → Except ε VRT)) :
    ∀ (f : String → Except ε VRT) (prev : String) (n : ℕ),
      ∃ n' : ℕ, (runPipelineSteps f rest prev
        ⟨n, List.range n, []⟩).2 = ⟨n', List.range n', []⟩ := by
  induction rest with
  | nil =>
      intro f prev n
      unfold runPipelineSteps
      cases hf : f prev with
      | error e => exact ⟨n, rfl⟩
      | ok vrt =>
          refine ⟨n + 1, ?_⟩
          simp [newTempfile, List.range_succ]
  | cons g gs ih =>
      intro f prev n
      unfold runPipelineSteps
      cases hf : f prev with
      | error e => exact ⟨n, rfl⟩
      | ok vrt =>
          have := ih g (tempName n) (n + 1)
          obtain ⟨n', hn'⟩ := this
          refine ⟨n', ?_⟩
          simpa [newTempfile, List.range_succ] using hn'

/-- C4: `pipeline` rejects an empty step sequence with the validation
error before creating any temporary file (the returned state is the
initial one, with no file ever created), and for every non-empty step
sequence the final state has no open temp file and has closed exactly the
temp files that were created — on success, on a failing step, and on a
failing render alike. -/
theorem pipeline_spec (ε β : Type) :
    (∀ (inputfile : String) (render : VRT → Except ε β),
      pipeline inputfile [] render = (.error .emptyFunctions, initTmpState) ∧
      initTmpState.nextId = 0 ∧ initTmpState.opened = [] ∧
      initTmpState.closed = []) ∧
    (∀ (inputfile : String) (f : String → Except ε VRT)
        (rest : List (String → Except ε VRT)) (render : VRT → Except ε β),
      (pipeline inputfile (f :: rest) render).2.opened = [] ∧
      (pipeline inputfile (f :: rest) render).2.closed =
        List.range (pipeline inputfile (f :: rest) render).2.nextId) := by
  constructor
  · intro inputfile render
    exact ⟨rfl, rfl, rfl, rfl⟩
  · intro inputfile f rest render
    obtain ⟨n', hn'⟩ := runPipelineSteps_state rest f inputfile 0
    have hn2 : (runPipelineSteps f rest inputfile initTmpState).2
        = ⟨n', List.range n', []⟩ := hn'
    unfold pipeline
    simp only [hn2, closeAllTempfiles]
    simp

/- ---------------------------------------------------------------------
   C8: check_output_gdal and the stdout quirk of extract_color_band.
   --------------------------------------------------------------------- -/

/-- C8: on a non-zero exit code, `check_output_gdal` fails with a
structured error carrying the exit code, the command, the captured stdout,
and the captured stderr with its trailing newlines stripped; and for a
valid band index, `extract_color_band` recovers exactly the engine failure
whose stripped error text is the documented `/dev/stdout` quirk message —
returning the already-produced stdout as the VRT — and propagates every
other failure unchanged. -/
theorem checkOutputGdal_quirk_spec (cmd : List String) (run : ProcResult)
    (d : Dataset) (inputfile : String) (band : ℤ)
    (hrc : run.returncode ≠ 0)
    (hband : 1 ≤ band ∧ band ≤ (RasterCount d : ℤ)) :
    check_output_gdal cmd run = .error ⟨run.returncode, cmd,
      run.stdoutdata, rstripNewlines run.stderrdata⟩ ∧
    (rstripNewlines run.stderrdata = stdoutQuirkMessage →
      extract_color_band d inputfile band run = .ok ⟨run.stdoutdata⟩) ∧
    (rstripNewlines run.stderrdata ≠ stdoutQuirkMessage →
      extract_color_band d inputfile band run = .error (.gdalError
        ⟨run.returncode, extractBandCmd inputfile band, run.stdoutdata,
         rstripNewlines run.stderrdata⟩)) := by
  have hchk : ∀ c : List String, check_output_gdal c run = .error
      ⟨run.returncode, c, run.stdoutdata, rstripNewlines run.stderrdata⟩ := by
    intro c
    unfold check_output_gdal
    rw [if_pos hrc]
  refine ⟨hchk cmd, ?_, ?_⟩
  · intro hq
    unfold extract_color_band
    rw [if_neg (not_not_intro hband), hchk (extractBandCmd inputfile band)]
    simp [hq]
  · intro hq
    unfold extract_color_band
    rw [if_neg (not_not_intro hband), hchk (extractBandCmd inputfile band)]
    simp only [if_neg hq]

/-- Witness for C8: a failing invocation with exit code 1 and stderr
`"boom\n"` produces the structured error with the newline stripped, and is
propagated (not recovered) by `extract_color_band` on the one-band raster
`d5`. -/
theorem checkOutputGdal_quirk_witness :
    check_output_gdal ["gdalwarp"] ⟨1, "vrtdata", "boom\n"⟩ =
      .error ⟨1, ["gdalwarp"], "vrtdata",
        rstripNewlines "boom\n"⟩ ∧
    extract_color_band d5 "input.tif" 1 ⟨1, "vrtdata", "boom\n"⟩ =
      .error (.gdalError ⟨1, extractBandCmd "input.tif" 1, "vrtdata",
        rstripNewlines "boom\n"⟩) := by
  have h := checkOutputGdal_quirk_spec ["gdalwarp"] ⟨1, "vrtdata", "boom\n"⟩
    d5 "input.tif" 1 (by decide) (by constructor <;> decide)
  exact ⟨h.1, h.2.2 (by decide)⟩

/- ---------------------------------------------------------------------
   C10: Band.IncrementValue.
   --------------------------------------------------------------------- -/

/-- C10: for an integer pixel type, `IncrementValue` rejects non-integer
values with a type error and out-of-range integers with a range error,
saturates at the type's maximum representable value, and otherwise adds
one; for a floating pixel type, it returns positive infinity at the
format's largest finite value and otherwise the next representable float
toward infinity (numpy's `nextafter` of the value cast to the dtype,
toward the cast infinity). -/
theorem incrementValue_spec (ops : NumpyOps) :
    (∀ (it : NumPyIntType),
      (∀ fv : FloatVal, ∃ m, IncrementValue ops (.integer it) (.pfloat fv)
        = .error (.typeError m)) ∧
      (∀ s : String, ∃ m, IncrementValue ops (.integer it) (.other s)
        = .error (.typeError m)) ∧
      (∀ n : ℤ, (¬ (iinfoMin it ≤ n ∧ n ≤ iinfoMax it) →
          ∃ m, IncrementValue ops (.integer it) (.pint n)
            = .error (.valueError m)) ∧
        (iinfoMin it ≤ n → n ≤ iinfoMax it →
          IncrementValue ops (.integer it) (.pint n)
            = .ok (.pint (if n = iinfoMax it then iinfoMax it
                else n + 1))))) ∧
    (∀ (ft : NumPyFloatType),
      IncrementValue ops (.floating ft) (.pfloat (.fin (finfoMax ft)))
        = .ok (.pfloat .inf) ∧
      (∀ x : FloatVal, floatValEqRat x (finfoMax ft) = false →
        IncrementValue ops (.floating ft) (.pfloat x)
          = .ok (.pfloat (ops.nextafter ft (ops.cast ft x)
              (ops.cast ft .inf))))) := by
  constructor
  · intro it
    refine ⟨fun fv => ⟨_, rfl⟩, fun s => ⟨_, rfl⟩, fun n => ⟨?_, ?_⟩⟩
    · intro hout
      simp only [IncrementValue]
      rw [if_pos hout]
      exact ⟨_, rfl⟩
    · intro hlo hhi
      simp only [IncrementValue]
      rw [if_neg (not_not_intro ⟨hlo, hhi⟩)]
      by_cases hmax : n = iinfoMax it
      · rw [if_pos hmax, if_pos hmax]
      · rw [if_neg hmax, if_neg hmax]
  · intro ft
    constructor
    · simp only [IncrementValue, floatValEqRat]
      simp
    · intro x hx
      simp only [IncrementValue]
      rw [hx]
      simp

/-- Witness for C10: saturation at the maximum of uint8, the increment at
254, the range error at 256, the type error on a float input to an integer
band, and infinity at the float32 maximum. -/
theorem incrementValue_witness :
    IncrementValue npOps0 (.integer .uint8) (.pint 255)
      = .ok (.pint (if (255 : ℤ) = iinfoMax .uint8 then iinfoMax .uint8
          else 255 + 1)) ∧
    IncrementValue npOps0 (.integer .uint8) (.pint 254)
      = .ok (.pint (if (254 : ℤ) = iinfoMax .uint8 then iinfoMax .uint8
          else 254 + 1)) ∧
    IncrementValue npOps0 (.floating .float32)
        (.pfloat (.fin (finfoMax .float32))) = .ok (.pfloat .inf) := by
  refine ⟨?_, ?_, ((incrementValue_spec npOps0).2 .float32).1⟩
  · exact (((incrementValue_spec npOps0).1 .uint8).2.2 255).2
      (by decide) (by decide)
  · exact (((incrementValue_spec npOps0).1 .uint8).2.2 254).2
      (by decide) (by decide)

/- ---------------------------------------------------------------------
   C5 / C7: the warp command assembly.
   --------------------------------------------------------------------- -/

/-- Closed form of the command list `warpCmd` assembles: the base and
target-projection arguments, the validated resampling arguments, the
`-te` extents, the `-ts` whole-tile pixel size, the conditional
`-dstnodata` block, and the input/output tail. -/
theorem warpCmd_eq (inputfile : String) (d : Dataset)
    (spatial_ref : SpatialReference) (tpf : ℚ → ℚ → ℚ × ℚ)
    (resampling : Option ResamplingArg) (maximum_resolution : Option ℕ)
    (h : ∃ z, natResStop d
      (some ⟨GetSpatialReference d, spatial_ref, tpf⟩)
      maximum_resolution z) :
    warpCmd inputfile d spatial_ref tpf resampling maximum_resolution h =
      (match resampling with
       | none => Except.ok []
       | some a => (validateResampling a).map
           (fun s => [Arg.lit "-r", Arg.lit s])).map (fun rargs =>
        [Arg.lit GDALWARP, Arg.lit "-q", Arg.lit "-of", Arg.lit "VRT",
         Arg.lit "-t_srs", Arg.lit spatial_ref.epsgString] ++ rargs ++
        [Arg.lit "-te",
         Arg.q (GetTiledExtents d
           (some ⟨GetSpatialReference d, spatial_ref, tpf⟩)
           (GetNativeResolution d
             (some ⟨GetSpatialReference d, spatial_ref, tpf⟩)
             maximum_resolution h)).lower_left.x,
         Arg.q (GetTiledExtents d
           (some ⟨GetSpatialReference d, spatial_ref, tpf⟩)
           (GetNativeResolution d
             (some ⟨GetSpatialReference d, spatial_ref, tpf⟩)
             maximum_resolution h)).lower_left.y,
         Arg.q (GetTiledExtents d
           (some ⟨GetSpatialReference d, spatial_ref, tpf⟩)
           (GetNativeResolution d
             (some ⟨GetSpatialReference d, spatial_ref, tpf⟩)
             maximum_resolution h)).upper_right.x,
         Arg.q (GetTiledExtents d
           (some ⟨GetSpatialReference d, spatial_ref, tpf⟩)
           (GetNativeResolution d
             (some ⟨GetSpatialReference d, spatial_ref, tpf⟩)
             maximum_resolution h)).upper_right.y] ++
        [Arg.lit "-ts",
         Arg.i ((GetTilesCount spatial_ref
           (GetTiledExtents d
             (some ⟨GetSpatialReference d, spatial_ref, tpf⟩)
             (GetNativeResolution d
               (some ⟨GetSpatialReference d, spatial_ref, tpf⟩)
               maximum_resolution h))
           (GetNativeResolution d
             (some ⟨GetSpatialReference d, spatial_ref, tpf⟩)
             maximum_resolution h)).1 * 256),
         Arg.i ((GetTilesCount spatial_ref
           (GetTiledExtents d
             (some ⟨GetSpatialReference d, spatial_ref, tpf⟩)
             (GetNativeResolution d
               (some ⟨GetSpatialReference d, spatial_ref, tpf⟩)
               maximum_resolution h))
           (GetNativeResolution d
             (some ⟨GetSpatialReference d, spatial_ref, tpf⟩)
             maximum_resolution h)).2 * 256)] ++
        (if d.bandNoData.any pyTruthyNoData then
          [Arg.lit "-dstnodata", Arg.nodataText d.bandNoData] else []) ++
        [Arg.lit inputfile, Arg.lit "/dev/stdout"]) := by
  cases resampling with
  | none => rfl
  | some a =>
      cases hv : validateResampling a with
      | error e =>
          unfold warpCmd
          dsimp only
          rw [hv]
          rfl
      | ok s =>
          unfold warpCmd
          dsimp only
          rw [hv]
          rfl

/-- A successfully validated resampling name is one of the five canonical
names of `RESAMPLING_METHODS`. -/
theorem validateResampling_ok_mem {a : ResamplingArg} {s : String}
    (hv : validateResampling a = .ok s) :
    s = "near" ∨ s = "bilinear" ∨ s = "cubic" ∨ s = "cubicspline" ∨
      s = "lanczos" := by
  cases a with
  | name s' =>
      unfold validateResampling at hv
      dsimp only at hv
      by_cases hc : (RESAMPLING_METHODS.map Prod.snd).contains s'
      · rw [if_pos hc] at hv
        injection hv with hv
        subst hv
        simp [RESAMPLING_METHODS, List.contains, List.elem_iff] at hc
        tauto
      · rw [if_neg hc] at hv
        exact absurd hv (by simp)
  | gra c =>
      unfold validateResampling at hv
      dsimp only at hv
      cases hf : RESAMPLING_METHODS.find? (fun p => p.1 = c) with
      | none =>
          rw [hf] at hv
          exact absurd hv (by simp)
      | some pair =>
          rw [hf] at hv
          simp only [Option.map] at hv
          injection hv with hv
          subst hv
          have hmem := List.mem_of_find?_eq_some hf
          simp [RESAMPLING_METHODS] at hmem
          rcases hmem with h | h | h | h | h <;> subst h <;> tauto

/-- The `d5`/`dNod` native-resolution scan with the identity transform to
`sr1` stops first at zoom 1 (shared shape of both fixtures). -/
theorem natResCond_idTpf_d5 : natResCond d5
    (some ⟨GetSpatialReference d5, sr1, idTpf⟩) 1 := by
  norm_num [natResCond, dstPixelSize, srcPixelSize, dstRefOf, idTpf,
    GetSpatialReference, GetPixelDimensions, GetTileDimensions, TILE_SIDE,
    GetMajorCircumference, GetMinorCircumference, d5, sr1, qpi, abs,
    max_def, min_def]

theorem natResCond_idTpf_d5_not0 : ¬ natResCond d5
    (some ⟨GetSpatialReference d5, sr1, idTpf⟩) 0 := by
  norm_num [natResCond, dstPixelSize, srcPixelSize, dstRefOf, idTpf,
    GetSpatialReference, GetPixelDimensions, GetTileDimensions, TILE_SIDE,
    GetMajorCircumference, GetMinorCircumference, d5, sr1, qpi, abs,
    max_def, min_def]

/-- Termination of the warp native-resolution scan for `d5`. -/
theorem warpH5 : ∃ z, natResStop d5
    (some ⟨GetSpatialReference d5, sr1, idTpf⟩) none z :=
  ⟨1, Or.inr natResCond_idTpf_d5⟩

theorem d5_native : GetNativeResolution d5
    (some ⟨GetSpatialReference d5, sr1, idTpf⟩) none warpH5 = 1 := by
  refine getNativeResolution_eq warpH5 (Or.inr natResCond_idTpf_d5) ?_
  intro y hy hs
  have hy0 : y = 0 := by omega
  subst hy0
  rcases hs with h' | h'
  · exact h'
  · exact natResCond_idTpf_d5_not0 h'

theorem d5_tiled1 : GetTiledExtents d5
    (some ⟨GetSpatialReference d5, sr1, idTpf⟩) 1
    = ⟨⟨-(1/2), -(1/2)⟩, ⟨0, 0⟩⟩ := by
  norm_num [GetTiledExtents, snapExtentsToTiles, qmod, OffsetPoint,
    minorOffsetOf, GetTileDimensions, GetWorldExtents,
    GetMajorCircumference, GetMinorCircumference, dstRefOf, idTpf,
    GetSpatialReference, GetExtents, PixelCoordinates, d5, sr1, qpi,
    min_def, max_def, Extents.mk.injEq, XY.mk.injEq]

theorem d5_tilesCount : GetTilesCount sr1 (⟨⟨-(1/2), -(1/2)⟩, ⟨0, 0⟩⟩ :
    Extents) 1 = (1, 1) := by
  norm_num [GetTilesCount, pyround, GetTileDimensions,
    GetMajorCircumference, GetMinorCircumference, sr1, qpi, Prod.ext_iff]

/-- Counterexample for C5 as stated: the single band of `d5` declares the
no-data value 0, yet — because the code tests Python truthiness of the
collected values (`if any(nodata_values)`, gdal.py:184) and `0.0` is falsy
— the assembled gdalwarp invocation carries no `-dstnodata` argument. -/
theorem warp_nodata_cex :
    d5.bandNoData = [some 0] ∧
    warpCmd "input.tif" d5 sr1 idTpf none none warpH5 = .ok
      [Arg.lit GDALWARP, Arg.lit "-q", Arg.lit "-of", Arg.lit "VRT",
       Arg.lit "-t_srs", Arg.lit "EPSG:3857",
       Arg.lit "-te", Arg.q (-(1/2)), Arg.q (-(1/2)), Arg.q 0, Arg.q 0,
       Arg.lit "-ts", Arg.i 256, Arg.i 256,
       Arg.lit "input.tif", Arg.lit "/dev/stdout"] ∧
    Arg.lit "-dstnodata" ∉
      [Arg.lit GDALWARP, Arg.lit "-q", Arg.lit "-of", Arg.lit "VRT",
       Arg.lit "-t_srs", Arg.lit "EPSG:3857",
       Arg.lit "-te", Arg.q (-(1/2)), Arg.q (-(1/2)), Arg.q 0, Arg.q 0,
       Arg.lit "-ts", Arg.i 256, Arg.i 256,
       Arg.lit "input.tif", Arg.lit "/dev/stdout"] ∧
    Arg.nodataText d5.bandNoData ∉
      [Arg.lit GDALWARP, Arg.lit "-q", Arg.lit "-of", Arg.lit "VRT",
       Arg.lit "-t_srs", Arg.lit "EPSG:3857",
       Arg.lit "-te", Arg.q (-(1/2)), Arg.q (-(1/2)), Arg.q 0, Arg.q 0,
       Arg.lit "-ts", Arg.i 256, Arg.i 256,
       Arg.lit "input.tif", Arg.lit "/dev/stdout"] := by
  have hnd : d5.bandNoData.any pyTruthyNoData = false := by
    norm_num [d5, pyTruthyNoData]
  refine ⟨rfl, ?_, by simp [GDALWARP], by simp [d5]⟩
  rw [warpCmd_eq, d5_native, d5_tiled1, d5_tilesCount, hnd]
  simp [GDALWARP, sr1, Except.map]

/-- C5 (amended): in every command list `warp` assembles, the
`-dstnodata` argument is present exactly when some band's collected
no-data value is Python-truthy (present and non-zero); when present, the
argument carries exactly one entry per band of the source (the full
collected list, bands without a no-data value contributing their `None`
entry, the textual lowercase rendering being delegated to `str`). -/
theorem warp_nodata_spec (inputfile : String) (d : Dataset)
    (spatial_ref : SpatialReference) (tpf : ℚ → ℚ → ℚ × ℚ)
    (resampling : Option ResamplingArg) (maximum_resolution : Option ℕ)
    (h : ∃ z, natResStop d
      (some ⟨GetSpatialReference d, spatial_ref, tpf⟩)
      maximum_resolution z) (l : List Arg)
    (hok : warpCmd inputfile d spatial_ref tpf resampling
      maximum_resolution h = .ok l) :
    ((Arg.nodataText d.bandNoData ∈ l) ↔
      d.bandNoData.any pyTruthyNoData = true) ∧
    (∀ vs, Arg.nodataText vs ∈ l → vs = d.bandNoData) ∧
    (d.bandNoData.any pyTruthyNoData = true →
      Arg.lit "-dstnodata" ∈ l) := by
  rw [warpCmd_eq] at hok
  cases resampling with
  | none =>
      dsimp only [Except.map] at hok
      injection hok with hok
      subst hok
      cases hnd : d.bandNoData.any pyTruthyNoData <;>
        simp [hnd, GDALWARP]
  | some a =>
      dsimp only at hok
      cases hv : validateResampling a with
      | error e =>
          rw [hv] at hok
          exact absurd hok (by simp [Except.map])
      | ok s =>
          rw [hv] at hok
          dsimp only [Except.map] at hok
          injection hok with hok
          subst hok
          rcases validateResampling_ok_mem hv with hs | hs | hs | hs | hs <;>
            subst hs <;>
            cases hnd : d.bandNoData.any pyTruthyNoData <;>
              simp [hnd, GDALWARP]

theorem natResCond_idTpf_dNod : natResCond dNod
    (some ⟨GetSpatialReference dNod, sr1, idTpf⟩) 1 := by
  norm_num [natResCond, dstPixelSize, srcPixelSize, dstRefOf, idTpf,
    GetSpatialReference, GetPixelDimensions, GetTileDimensions, TILE_SIDE,
    GetMajorCircumference, GetMinorCircumference, dNod, sr1, qpi, abs,
    max_def, min_def]

theorem natResCond_idTpf_dNod_not0 : ¬ natResCond dNod
    (some ⟨GetSpatialReference dNod, sr1, idTpf⟩) 0 := by
  norm_num [natResCond, dstPixelSize, srcPixelSize, dstRefOf, idTpf,
    GetSpatialReference, GetPixelDimensions, GetTileDimensions, TILE_SIDE,
    GetMajorCircumference, GetMinorCircumference, dNod, sr1, qpi, abs,
    max_def, min_def]

/-- Termination of the warp native-resolution scan for `dNod`. -/
theorem warpHNod : ∃ z, natResStop dNod
    (some ⟨GetSpatialReference dNod, sr1, idTpf⟩) none z :=
  ⟨1, Or.inr natResCond_idTpf_dNod⟩

theorem dNod_native : GetNativeResolution dNod
    (some ⟨GetSpatialReference dNod, sr1, idTpf⟩) none warpHNod = 1 := by
  refine getNativeResolution_eq warpHNod (Or.inr natResCond_idTpf_dNod) ?_
  intro y hy hs
  have hy0 : y = 0 := by omega
  subst hy0
  rcases hs with h' | h'
  · exact h'
  · exact natResCond_idTpf_dNod_not0 h'

theorem dNod_tiled1 : GetTiledExtents dNod
    (some ⟨GetSpatialReference dNod, sr1, idTpf⟩) 1
    = ⟨⟨-(1/2), -(1/2)⟩, ⟨0, 0⟩⟩ := by
  norm_num [GetTiledExtents, snapExtentsToTiles, qmod, OffsetPoint,
    minorOffsetOf, GetTileDimensions, GetWorldExtents,
    GetMajorCircumference, GetMinorCircumference, dstRefOf, idTpf,
    GetSpatialReference, GetExtents, PixelCoordinates, dNod, sr1, qpi,
    min_def, max_def, Extents.mk.injEq, XY.mk.injEq]

theorem dNod_warpCmd : warpCmd "input.tif" dNod sr1 idTpf none none
    warpHNod = .ok
      [Arg.lit GDALWARP, Arg.lit "-q", Arg.lit "-of", Arg.lit "VRT",
       Arg.lit "-t_srs", Arg.lit "EPSG:3857",
       Arg.lit "-te", Arg.q (-(1/2)), Arg.q (-(1/2)), Arg.q 0, Arg.q 0,
       Arg.lit "-ts", Arg.i 256, Arg.i 256,
       Arg.lit "-dstnodata", Arg.nodataText [some 5, none],
       Arg.lit "input.tif", Arg.lit "/dev/stdout"] := by
  have hnd : dNod.bandNoData.any pyTruthyNoData = true := by
    norm_num [dNod, pyTruthyNoData]
  rw [warpCmd_eq, dNod_native, dNod_tiled1, d5_tilesCount, hnd]
  simp [GDALWARP, sr1, dNod, Except.map]

/-- Witness for C5 (amended): on the two-band raster `dNod` (no-data 5 on
band 1, none on band 2) the assembled command carries the `-dstnodata`
argument with exactly one entry per band. -/
theorem warp_nodata_spec_witness :
    Arg.nodataText dNod.bandNoData ∈
      [Arg.lit GDALWARP, Arg.lit "-q", Arg.lit "-of", Arg.lit "VRT",
       Arg.lit "-t_srs", Arg.lit "EPSG:3857",
       Arg.lit "-te", Arg.q (-(1/2)), Arg.q (-(1/2)), Arg.q 0, Arg.q 0,
       Arg.lit "-ts", Arg.i 256, Arg.i 256,
       Arg.lit "-dstnodata", Arg.nodataText [some 5, none],
       Arg.lit "input.tif", Arg.lit "/dev/stdout"] ∧
    Arg.lit "-dstnodata" ∈
      [Arg.lit GDALWARP, Arg.lit "-q", Arg.lit "-of", Arg.lit "VRT",
       Arg.lit "-t_srs", Arg.lit "EPSG:3857",
       Arg.lit "-te", Arg.q (-(1/2)), Arg.q (-(1/2)), Arg.q 0, Arg.q 0,
       Arg.lit "-ts", Arg.i 256, Arg.i 256,
       Arg.lit "-dstnodata", Arg.nodataText [some 5, none],
       Arg.lit "input.tif", Arg.lit "/dev/stdout"] := by
  have hnd : dNod.bandNoData.any pyTruthyNoData = true := by
    norm_num [dNod, pyTruthyNoData]
  have h := warp_nodata_spec "input.tif" dNod sr1 idTpf none none warpHNod
    _ dNod_warpCmd
  exact ⟨h.1.mpr hnd, h.2.2 hnd⟩

/- ---------------------------------------------------------------------
   C7: resampling validation in warp.
   --------------------------------------------------------------------- -/

/-- Counterexample for C7 as stated: against an engine that advertises
`average` (any gdalwarp from 1.10 on), the claim's condition says warp
must accept the string `"average"`, but the code validates only against
the static `RESAMPLING_METHODS` table and raises the
unknown-resampling-method error. -/
theorem warp_resampling_cex :
    "average" ∈ gdalAdvertised ∧
    ¬ specResamplingRejected gdalAdvertised (.name "average") ∧
    warpCmd "input.tif" d5 sr1 idTpf (some (.name "average")) none warpH5
      = .error ⟨.name "average"⟩ := by
  refine ⟨by decide, by decide, ?_⟩
  have hv : validateResampling (.name "average")
      = .error ⟨.name "average"⟩ := rfl
  rw [warpCmd_eq]
  dsimp only
  rw [hv]
  rfl

/-- C7 (amended): `warp` raises the unknown-resampling-method error
exactly when the supplied value is neither a recognized resampling enum
code (a key of `RESAMPLING_METHODS`) nor one of that static table's
canonical name strings — the engine's advertised list is not consulted;
a recognized enum code is translated to its canonical name, which is
passed with `-r`. -/
theorem warp_resampling_spec (inputfile : String) (d : Dataset)
    (spatial_ref : SpatialReference) (tpf : ℚ → ℚ → ℚ × ℚ)
    (maximum_resolution : Option ℕ)
    (h : ∃ z, natResStop d
      (some ⟨GetSpatialReference d, spatial_ref, tpf⟩)
      maximum_resolution z) (a : ResamplingArg) :
    ((∃ e, warpCmd inputfile d spatial_ref tpf (some a) maximum_resolution
        h = .error e) ↔
      specResamplingRejected (RESAMPLING_METHODS.map Prod.snd) a) ∧
    (∀ s, validateResampling a = .ok s →
      ∃ l, warpCmd inputfile d spatial_ref tpf (some a) maximum_resolution
          h = .ok l ∧ Arg.lit "-r" ∈ l ∧ Arg.lit s ∈ l) ∧
    (∀ c p, a = .gra c →
      RESAMPLING_METHODS.find? (fun q => q.1 = c) = some p →
      validateResampling a = .ok p.2) := by
  refine ⟨?_, ?_, ?_⟩
  · rw [warpCmd_eq]
    dsimp only
    constructor
    · rintro ⟨e, he⟩
      cases hv : validateResampling a with
      | error e' =>
          cases a with
          | name s =>
              unfold validateResampling at hv
              dsimp only at hv
              by_cases hc : (RESAMPLING_METHODS.map Prod.snd).contains s
              · rw [if_pos hc] at hv
                exact absurd hv (by simp)
              · unfold specResamplingRejected
                dsimp only
                intro hmem
                exact hc (List.elem_iff.mpr hmem)
          | gra c =>
              unfold validateResampling at hv
              dsimp only at hv
              cases hf : RESAMPLING_METHODS.find? (fun q => q.1 = c) with
              | none =>
                  unfold specResamplingRejected
                  dsimp only
                  exact hf
              | some p =>
                  rw [hf] at hv
                  simp only [Option.map] at hv
                  exact absurd hv (by simp)
      | ok s =>
          rw [hv] at he
          exact absurd he (by simp [Except.map])
    · intro hspec
      have hv : validateResampling a = .error ⟨a⟩ := by
        cases a with
        | name s =>
            unfold specResamplingRejected at hspec
            dsimp only at hspec
            unfold validateResampling
            dsimp only
            rw [if_neg (fun hc => hspec (List.elem_iff.mp hc))]
        | gra c =>
            unfold specResamplingRejected at hspec
            dsimp only at hspec
            unfold validateResampling
            dsimp only
            rw [hspec]
            rfl
      rw [hv]
      exact ⟨⟨a⟩, rfl⟩
  · intro s hv
    rw [warpCmd_eq]
    dsimp only
    rw [hv]
    refine ⟨_, rfl, ?_, ?_⟩ <;> simp
  · intro c p ha hf
    subst ha
    unfold validateResampling
    dsimp only
    rw [hf]
    simp [Option.map]

/-- Witness for C7 (amended): the canonical string `"near"` passes
validation and is forwarded after `-r`; the enum code 4 (`GRA_Lanczos`)
translates to `"lanczos"`. -/
theorem warp_resampling_spec_witness :
    (∃ l, warpCmd "input.tif" d5 sr1 idTpf (some (.name "near")) none
        warpH5 = .ok l ∧ Arg.lit "-r" ∈ l ∧ Arg.lit "near" ∈ l) ∧
    validateResampling (.gra 4) = .ok ("lanczos") := by
  constructor
  · exact (warp_resampling_spec "input.tif" d5 sr1 idTpf none warpH5
      (.name "near")).2.1 "near" rfl
  · exact (warp_resampling_spec "input.tif" d5 sr1 idTpf none warpH5
      (.gra 4)).2.2 4 (4, "lanczos") rfl rfl

/- ---------------------------------------------------------------------
   C6: GetWorldTmsBorders.
   --------------------------------------------------------------------- -/

/-- Membership in the model of Python `xrange`. -/
theorem mem_intRange {a b z : ℤ} : z ∈ intRange a b ↔ a ≤ z ∧ z < b := by
  unfold intRange
  rw [List.mem_map]
  constructor
  · rintro ⟨i, hi, rfl⟩
    rw [List.mem_range] at hi
    have h2 : (i : ℤ) < b - a := Int.lt_toNat.mp hi
    have h3 : (0 : ℤ) ≤ i := Int.natCast_nonneg i
    constructor
    · linarith
    · linarith
  · rintro ⟨h1, h2⟩
    refine ⟨(z - a).toNat, ?_, ?_⟩
    · rw [List.mem_range]
      exact Int.lt_toNat.mpr
        (by rw [Int.toNat_of_nonneg (by linarith)]; linarith)
    · rw [Int.toNat_of_nonneg (by linarith)]
      ring

/-- C6 (amended): `GetWorldTmsBorders` propagates the unaligned-input
failure of `GetTmsExtents`; on success, the returned generator yields
exactly the indices of the world tile-index extents (whose lower-left is
always `(0, 0)`) that are not inside the dataset's own tile-index extents;
the sequence is finite, but it is single-use: a full iteration exhausts
the generator and a second iteration yields nothing. -/
theorem worldTmsBorders_spec (d : Dataset)
    (t : Option CoordinateTransformation) (res : ℕ)
    (h : ∃ z, natResStop d t none z) (g : PyGenerator XYI) (E : ExtentsI)
    (hg : GetWorldTmsBorders d t res h = .ok g)
    (hE : GetTmsExtents d t res h = .ok E) (p : XYI) :
    (GetWorldTmsExtents d t res).lower_left = ⟨0, 0⟩ ∧
    (p ∈ g.pending ↔
      (insideExtentsI (GetWorldTmsExtents d t res) p ∧
        ¬ insideExtentsI E p)) ∧
    g.iterate.1 = g.pending ∧
    g.iterate.2.iterate.1 = [] := by
  unfold GetWorldTmsBorders at hg
  rw [hE] at hg
  dsimp only [Except.map] at hg
  injection hg with hg
  subst hg
  refine ⟨rfl, ?_, rfl, rfl⟩
  simp only [List.mem_flatMap, List.mem_filterMap,
    Option.ite_none_left_eq_some, Option.some.injEq, mem_intRange]
  constructor
  · rintro ⟨x, hx, y, ⟨hy, hni, rfl⟩⟩
    exact ⟨⟨hx.1, hx.2, hy.1, hy.2⟩, hni⟩
  · rintro ⟨⟨hx1, hx2, hy1, hy2⟩, hni⟩
    exact ⟨p.x, ⟨hx1, hx2⟩, p.y, ⟨⟨hy1, hy2⟩, hni, rfl⟩⟩

theorem d0_worldTms : GetWorldTmsExtents d0 none 1 = ⟨⟨0, 0⟩, ⟨2, 2⟩⟩ := by
  norm_num [GetWorldTmsExtents, GetTilesCount, pyround, dstRefOf,
    GetSpatialReference, GetWorldExtents, GetTileDimensions,
    GetMajorCircumference, GetMinorCircumference, d0, sr1, qpi,
    ExtentsI.mk.injEq, XYI.mk.injEq]

/-- The border tiles of `d0` at resolution 1, in generator order. -/
theorem d0_borders : GetWorldTmsBorders d0 none 1 natResStop_d0
    = .ok ⟨[⟨0, 1⟩, ⟨1, 0⟩, ⟨1, 1⟩]⟩ := by
  unfold GetWorldTmsBorders
  rw [d0_tms, d0_worldTms]
  dsimp only [Except.map]
  rfl

/-- Counterexample for C6 as stated: the borders sequence of `d0` is a
Python generator; a first full iteration yields the three border tiles and
exhausts it, so a second iteration yields the empty sequence — it is not
restartable. -/
theorem worldTmsBorders_restart_cex :
    GetWorldTmsBorders d0 none 1 natResStop_d0
      = .ok ⟨[⟨0, 1⟩, ⟨1, 0⟩, ⟨1, 1⟩]⟩ ∧
    (PyGenerator.mk [(⟨0, 1⟩ : XYI), ⟨1, 0⟩, ⟨1, 1⟩]).iterate.1
      = [(⟨0, 1⟩ : XYI), ⟨1, 0⟩, ⟨1, 1⟩] ∧
    (PyGenerator.mk [(⟨0, 1⟩ : XYI), ⟨1, 0⟩, ⟨1, 1⟩]).iterate.2.iterate.1
      = [] ∧
    (PyGenerator.mk [(⟨0, 1⟩ : XYI), ⟨1, 0⟩, ⟨1, 1⟩]).iterate.2.iterate.1
      ≠ (PyGenerator.mk [(⟨0, 1⟩ : XYI), ⟨1, 0⟩, ⟨1, 1⟩]).iterate.1 :=
  ⟨d0_borders, rfl, rfl, by decide⟩

/-- Witness for C6 (amended): at `d0`, resolution 1, the index `(1, 1)`
is yielded and lies inside the world extents but not inside the data
extents. -/
theorem worldTmsBorders_spec_witness :
    (GetWorldTmsExtents d0 none 1).lower_left = ⟨0, 0⟩ ∧
    ((⟨1, 1⟩ : XYI) ∈
        (PyGenerator.mk [(⟨0, 1⟩ : XYI), ⟨1, 0⟩, ⟨1, 1⟩]).pending ↔
      (insideExtentsI (GetWorldTmsExtents d0 none 1) ⟨1, 1⟩ ∧
        ¬ insideExtentsI ⟨⟨0, 0⟩, ⟨1, 1⟩⟩ ⟨1, 1⟩)) := by
  have h := worldTmsBorders_spec d0 none 1 natResStop_d0
    ⟨[⟨0, 1⟩, ⟨1, 0⟩, ⟨1, 1⟩]⟩ ⟨⟨0, 0⟩, ⟨1, 1⟩⟩ d0_borders d0_tms ⟨1, 1⟩
  exact ⟨h.1, h.2.1⟩
